import Mathlib

/-!
# Vehicular mmWave sidelink scenarios

A shallow embedding of the three scenario programs under `src/scratch`:

* `vehicular-threeTransmitters.cc`           (one group, ON/OFF traffic, `Tx`/`Rx` callbacks, PRR)
* `vehicular-threeTransmitters_new.cc`       (one group, trace-driven bursts)
* `vehicular-threeTransmitters_2plat_sem.cc` (two groups, trace-driven bursts)

Conventions.

* `uint32_t` / `uint64_t` values are natural numbers reduced modulo `2 ^ 32` / `2 ^ 64`;
  `int64_t` nanosecond counts are integers.
* A `double` is represented by the exact rational it stands for (`DoubleVal.finite`), plus the two
  special results a division by zero can produce.  Products such as `2*intraGroupDistance` are
  taken exactly.
* An output stream is the list of values inserted into it, each tagged with the C++ static type
  that selects its `operator<<`.
* The body of `main` is the list of calls it issues to the simulator library, in program order.
-/

namespace VehicularThreeTransmitters

/-! ## Values and output streams -/

/-- A `double` result: an exact rational, or one of the special values produced by `x / 0.0`
for a non-negative `x`. -/
inductive DoubleVal where
  | nan
  | inf
  | finite (q : ℚ)
  deriving DecidableEq

/-- One value inserted into a `std::ostream` with `operator<<`. -/
inductive Token where
  | str (s : String)
  | int (v : Int)
  | u32 (v : Nat)
  | u64 (v : Nat)
  | dbl (v : DoubleVal)
  | endl
  deriving DecidableEq

/-- Text produced by inserting a token; the formatting of a `double` is the stream's and is a
parameter. -/
def Token.text (fmtDouble : DoubleVal → String) : Token → String
  | .str s => s
  | .int v => toString v
  | .u32 v => toString v
  | .u64 v => toString v
  | .dbl v => fmtDouble v
  | .endl => "\n"

/-- `Time::GetSeconds ()` of a time held as a nanosecond count. -/
def GetSeconds (ns : Int) : DoubleVal := .finite ((ns : ℚ) / 1000000000)

/-- A received or transmitted packet as the callbacks see it: `GetSize ()` and the nanosecond
value `seqTs.GetTs ().GetNanoSeconds ()` of the `SeqTsHeader` that `RemoveHeader` extracts. -/
structure Packet where
  size : Nat
  ts : Int
  deriving DecidableEq

/-! ## ON/OFF scenario: globals and trace callbacks -/

/-- Process state touched by the callbacks: the two global counters and the contents of the
shared output stream `plotsTHR/group-1.txt`. -/
structure State where
  g_txPacketsGroup1 : Nat
  g_rxPacketsGroup1 : Nat
  stream : List Token
  deriving DecidableEq

/-- Initial values of the globals and an empty stream. -/
def State.init : State := ⟨0, 0, []⟩

/-- The line written by `Tx`. -/
def TxLine (device : Int) (now : Int) (p : Packet) : List Token :=
  [.str "Tx\t", .int device, .str "\t", .dbl (GetSeconds now), .str "\t", .u32 p.size, .endl]

/-- `static void Tx (stream, device, p)`, at simulation time `now` (ns). -/
def Tx (s : State) (device : Int) (now : Int) (p : Packet) : State :=
  { s with
    stream := s.stream ++ TxLine device now p
    g_txPacketsGroup1 := (s.g_txPacketsGroup1 + 1) % 2 ^ 32 }

/-- `uint64_t delayNs = Simulator::Now ().GetNanoSeconds () - seqTs.GetTs ().GetNanoSeconds ()`:
the `int64_t` difference converted to `uint64_t`. -/
def delayNs (now ts : Int) : Nat := ((now - ts) % 2 ^ 64).toNat

/-- The line written by `Rx`: the two branches of the `if` on the header timestamp. -/
def RxLine (now : Int) (packet : Packet) : List Token :=
  if packet.ts ≠ 0 then
    [.str "Rx\t", .dbl (GetSeconds now), .str "\t", .u32 packet.size, .str "\t",
      .u64 (delayNs now packet.ts), .endl]
  else
    [.str "Rx\t", .dbl (GetSeconds now), .str "\t", .u32 packet.size, .str "\t",
      .int (-1), .endl]

/-- `static void Rx (stream, packet, from)`, at simulation time `now` (ns). -/
def Rx (s : State) (now : Int) (packet : Packet) : State :=
  { s with
    stream := s.stream ++ RxLine now packet
    g_rxPacketsGroup1 := (s.g_rxPacketsGroup1 + 1) % 2 ^ 32 }

/-- The value inserted after the third tab of an `Rx` line (the delay column). -/
def delayField (toks : List Token) : Option Token := toks[5]?

/-- One callback invocation. -/
inductive Event where
  | tx (device : Int) (now : Int) (p : Packet)
  | rx (now : Int) (packet : Packet)
  deriving DecidableEq

/-- Dispatch of one trace event to its callback. -/
def step (s : State) : Event → State
  | .tx device now p => Tx s device now p
  | .rx now packet => Rx s now packet

/-- The callbacks run in order, starting from a given state. -/
def runFrom (s : State) (es : List Event) : State := es.foldl step s

/-- A run of the simulation as seen by the globals. -/
def run (es : List Event) : State := runFrom State.init es

/-- Number of `Tx` invocations in an event sequence. -/
def countTx (es : List Event) : Nat :=
  es.countP (fun e => match e with | .tx _ _ _ => true | .rx _ _ => false)

/-- Number of `Rx` invocations in an event sequence. -/
def countRx (es : List Event) : Nat :=
  es.countP (fun e => match e with | .tx _ _ _ => false | .rx _ _ => true)

/-- The `double` quotient `double (a) / double (b)` of two unsigned counters: the conversions
are exact, a zero divisor gives NaN for `0 / 0` and infinity otherwise, and no trap is raised. -/
def doubleDiv (a b : Nat) : DoubleVal :=
  if b = 0 then (if a = 0 then .nan else .inf) else .finite ((a : ℚ) / (b : ℚ))

/-- The value streamed after `"PRR "` at the end of `main`. -/
def PRR (s : State) : DoubleVal := doubleDiv s.g_rxPacketsGroup1 s.g_txPacketsGroup1

/-- The final line `std::cout << "PRR " << double(rx) / double(tx) << std::endl`. -/
def prrOutput (s : State) : List Token := [.str "PRR ", .dbl (PRR s), .endl]

/-- A `double` lies in the closed interval `[0, 1]`. -/
def DoubleVal.inUnitInterval : DoubleVal → Prop
  | .finite q => 0 ≤ q ∧ q ≤ 1
  | _ => False

/-! ## Scenario set-up: the calls issued by `main` -/

/-- The ns-3 `Vector` of three `double` coordinates. -/
structure Vector where
  x : ℚ
  y : ℚ
  z : ℚ
  deriving DecidableEq

/-- Componentwise difference of two vectors. -/
def Vector.sub (a b : Vector) : Vector := ⟨a.x - b.x, a.y - b.y, a.z - b.z⟩

/-- The node `groupN.Get (index)`; `group` is `1` for `group1` and `2` for `group2`. -/
structure NodeRef where
  group : Nat
  index : Nat
  deriving DecidableEq

/-- A net device, named by the node it is installed on: `devsN.Get (k)` is the device of
`groupN.Get (k)`. -/
abbrev Device := NodeRef

/-- The application containers declared by the scenarios. -/
inductive AppContainer where
  | onOffApps
  | packetSinkApps
  | clientApps
  | serverApps
  deriving DecidableEq

/-- A call that `main` issues to the simulator library.  Times are nanosecond counts.
`Config::SetDefault`, logging and helper attribute settings are not recorded. -/
inductive Call where
  | Create (group n : Nat)
  | InstallMobility (group : Nat)
  | SetPosition (node : NodeRef) (v : Vector)
  | SetVelocity (node : NodeRef) (v : Vector)
  | InstallMmWaveVehicularNetDevices (group : Nat)
  | InstallInternet (group : Nat)
  | Assign (base : String) (group : Nat)
  | PairDevices (devs : List Device)
  | SetDefaultRoute (node nextHop : NodeRef)
  | InstallOnOff (node remote : NodeRef) (port : Nat)
  | InstallPacketSink (node : NodeRef) (port : Nat)
  | TraceConnectTx (appIndex : Nat) (device : Int)
  | TraceConnectRx (appIndex : Nat)
  | CreateStatsCalculator (stats : Nat)
  | SetOutputFilename (stats : Nat) (filename : String)
  | InstallBursty (node remote : NodeRef) (port : Nat)
  | ConnectBurstTx (clientIndex nodeId stats : Nat)
  | InstallBurstSink (node : NodeRef) (port : Nat)
  | ConnectBurstRx (serverIndex nodeId stats : Nat)
  | ConnectBurstGenerator (serverIndex clientIndex : Nat)
  | Start (apps : AppContainer) (t : Int)
  | StartWithJitter (apps : AppContainer) (t : Int)
  | Stop (apps : AppContainer) (t : Int)
  | SimulatorStop (t : Int)
  | SimulatorRun
  | SimulatorDestroy
  deriving DecidableEq

/-- `MilliSeconds (n)` as a nanosecond count. -/
def MilliSeconds (n : Nat) : Int := (n : Int) * 1000000

/-- The nodes of a group in container order, after `groupN.Create (4)`. -/
def groupNodes (group : Nat) : List NodeRef := (List.range 4).map (NodeRef.mk group)

/-- The container `devsN` returned by `InstallMmWaveVehicularNetDevices (groupN)`: one device per
node, in node order. -/
def devs (group : Nat) : List Device := groupNodes group

/-- The mobility set-up of one group of four nodes lying at ordinate `y`: the four
`SetPosition` / `SetVelocity` pairs, in program order. -/
def placeGroup (group : Nat) (intraGroupDistance y speed : ℚ) : List Call :=
  [ .SetPosition ⟨group, 0⟩ ⟨0, y, 0⟩,
    .SetVelocity ⟨group, 0⟩ ⟨speed, 0, 0⟩,
    .SetPosition ⟨group, 1⟩ ⟨intraGroupDistance, y, 0⟩,
    .SetVelocity ⟨group, 1⟩ ⟨speed, 0, 0⟩,
    .SetPosition ⟨group, 2⟩ ⟨2 * intraGroupDistance, y, 0⟩,
    .SetVelocity ⟨group, 2⟩ ⟨speed, 0, 0⟩,
    .SetPosition ⟨group, 3⟩ ⟨3 * intraGroupDistance, y, 0⟩,
    .SetVelocity ⟨group, 3⟩ ⟨speed, 0, 0⟩ ]

/-- Topology construction of the one-group scenarios (`group1.Create (4)` up to the last
`SetVelocity`).  The source neither checks `intraGroupDistance` or `speed` nor has any failure
path here, so the result is always `Except.ok`. -/
def buildTopology1 (intraGroupDistance speed : ℚ) : Except String (List Call) :=
  .ok ([.Create 1 4, .InstallMobility 1] ++ placeGroup 1 intraGroupDistance 0 speed)

/-- Topology construction of the two-group scenario.  As in the one-group scenarios no parameter
is checked and there is no failure path. -/
def buildTopology2 (intraGroupDistance interGroupDistance speed : ℚ) :
    Except String (List Call) :=
  .ok ([.Create 1 4, .Create 2 4, .InstallMobility 1, .InstallMobility 2]
    ++ placeGroup 1 intraGroupDistance 0 speed
    ++ placeGroup 2 intraGroupDistance interGroupDistance speed)

/-- The three `SetDefaultRoute` calls of one group: nodes 0, 1, 2 route via node 3. -/
def defaultRoutes (group : Nat) : List Call :=
  [ .SetDefaultRoute ⟨group, 0⟩ ⟨group, 3⟩,
    .SetDefaultRoute ⟨group, 1⟩ ⟨group, 3⟩,
    .SetDefaultRoute ⟨group, 2⟩ ⟨group, 3⟩ ]

/-- The pairing step of the two-group scenario: the `if (orthogonalResources)` statement. -/
def pairing2 (orthogonalResources : Bool) : List Call :=
  if orthogonalResources then
    [.PairDevices (devs 1 ++ devs 2)]
  else
    [.PairDevices (devs 1), .PairDevices (devs 2)]

/-- Device installation, internet stack and address assignment for one group. -/
def installGroup (group : Nat) (base : String) : List Call :=
  [.InstallMmWaveVehicularNetDevices group, .InstallInternet group, .Assign base group]

/-- The ON/OFF scenario from the creation of the applications to `Simulator::Destroy ()`.
`stopTime + 1000` is a `uint32_t` sum. -/
def onOffTraffic (startTime stopTime : Nat) : List Call :=
  [ .InstallOnOff ⟨1, 0⟩ ⟨1, 3⟩ 1234,
    .InstallOnOff ⟨1, 1⟩ ⟨1, 3⟩ 1234,
    .InstallOnOff ⟨1, 2⟩ ⟨1, 3⟩ 1234,
    .InstallPacketSink ⟨1, 3⟩ 1234,
    .Start .onOffApps (MilliSeconds startTime),
    .Stop .onOffApps (MilliSeconds stopTime),
    .Start .packetSinkApps (MilliSeconds 0),
    .TraceConnectTx 0 0,
    .TraceConnectTx 1 1,
    .TraceConnectTx 2 2,
    .TraceConnectRx 0,
    .SimulatorStop (MilliSeconds ((stopTime + 1000) % 2 ^ 32)),
    .SimulatorRun,
    .SimulatorDestroy ]

/-- State threaded through the flow set-up loops of the trace-driven scenarios: the calls issued
so far, `clientApps.GetN ()`, `serverApps.GetN ()` and the number of
`BurstyAppStatsCalculator` objects created (a calculator is named by its creation ordinal). -/
structure Builder where
  calls : List Call
  clientN : Nat
  serverN : Nat
  statsN : Nat

/-- No call issued, empty containers. -/
def Builder.init : Builder := ⟨[], 0, 0, 0⟩

/-- Body of the flow loop of `vehicular-threeTransmitters_new.cc`, iteration `i`. -/
def flowBodyNew (GetId : NodeRef → Nat) (b : Builder) (i : Nat) : Builder :=
  let stats := b.statsN
  let filename := "statsDev" ++ toString (i + 1) ++ ".txt"
  let clientN := b.clientN + 1
  let serverN := b.serverN + 1
  { calls := b.calls ++
      [ .CreateStatsCalculator stats,
        .SetOutputFilename stats filename,
        .InstallBursty ⟨1, i⟩ ⟨1, 3⟩ (50000 + i),
        .ConnectBurstTx i (1 + GetId ⟨1, i⟩) stats,
        .InstallBurstSink ⟨1, 3⟩ (50000 + i),
        .ConnectBurstRx (serverN - 1) (1 + GetId ⟨1, 3⟩) stats,
        .ConnectBurstGenerator (serverN - 1) i ]
    clientN := clientN
    serverN := serverN
    statsN := b.statsN + 1 }

/-- Body of the first flow loop (group 1) of `vehicular-threeTransmitters_2plat_sem.cc`: the
source application is fetched with `clientApps.Get (i)`. -/
def flowBodyGroup1 (GetId : NodeRef → Nat) (b : Builder) (i : Nat) : Builder :=
  let stats := b.statsN
  let filename := "Dev" ++ toString (1 + GetId ⟨1, i⟩) ++ ".txt"
  let clientN := b.clientN + 1
  let serverN := b.serverN + 1
  { calls := b.calls ++
      [ .CreateStatsCalculator stats,
        .SetOutputFilename stats filename,
        .InstallBursty ⟨1, i⟩ ⟨1, 3⟩ (50000 + i),
        .ConnectBurstTx i (1 + GetId ⟨1, i⟩) stats,
        .InstallBurstSink ⟨1, 3⟩ (50000 + i),
        .ConnectBurstRx (serverN - 1) (1 + GetId ⟨1, 3⟩) stats,
        .ConnectBurstGenerator (serverN - 1) i ]
    clientN := clientN
    serverN := serverN
    statsN := b.statsN + 1 }

/-- Body of the second flow loop (group 2) of `vehicular-threeTransmitters_2plat_sem.cc`: the
source application is fetched with `clientApps.Get (clientApps.GetN () - 1)`. -/
def flowBodyGroup2 (GetId : NodeRef → Nat) (b : Builder) (i : Nat) : Builder :=
  let stats := b.statsN
  let filename := "Dev" ++ toString (1 + GetId ⟨2, i⟩) ++ ".txt"
  let clientN := b.clientN + 1
  let serverN := b.serverN + 1
  { calls := b.calls ++
      [ .CreateStatsCalculator stats,
        .SetOutputFilename stats filename,
        .InstallBursty ⟨2, i⟩ ⟨2, 3⟩ (50000 + i),
        .ConnectBurstTx (clientN - 1) (1 + GetId ⟨2, i⟩) stats,
        .InstallBurstSink ⟨2, 3⟩ (50000 + i),
        .ConnectBurstRx (serverN - 1) (1 + GetId ⟨2, 3⟩) stats,
        .ConnectBurstGenerator (serverN - 1) (clientN - 1) ]
    clientN := clientN
    serverN := serverN
    statsN := b.statsN + 1 }

/-- The trace-driven part of `vehicular-threeTransmitters_new.cc`: the loop
`for (int i = 0; i < 3; i++)`, then start, stop and run. -/
def newTraffic (GetId : NodeRef → Nat) : List Call :=
  ((List.range 3).foldl (flowBodyNew GetId) Builder.init).calls ++
    [ .StartWithJitter .clientApps 1000000000,
      .Stop .clientApps 40000000000,
      .SimulatorRun,
      .SimulatorDestroy ]

/-- The trace-driven part of `vehicular-threeTransmitters_2plat_sem.cc`: the two loops, then
start, stop and run. -/
def twoPlatTraffic (GetId : NodeRef → Nat) : List Call :=
  ((List.range 3).foldl (flowBodyGroup2 GetId)
      ((List.range 3).foldl (flowBodyGroup1 GetId) Builder.init)).calls ++
    [ .StartWithJitter .clientApps 100000000,
      .Stop .clientApps 7000000000,
      .SimulatorStop 8000000000,
      .SimulatorRun,
      .SimulatorDestroy ]

namespace OnOff

/-- The calls issued by `main` of `vehicular-threeTransmitters.cc`. -/
def main (startTime stopTime : Nat) (intraGroupDistance speed : ℚ) :
    Except String (List Call) := do
  let topology ← buildTopology1 intraGroupDistance speed
  pure (topology ++ installGroup 1 "10.1.1.0" ++ [.PairDevices (devs 1)] ++ defaultRoutes 1
    ++ onOffTraffic startTime stopTime)

end OnOff

namespace New

/-- The calls issued by `main` of `vehicular-threeTransmitters_new.cc`. -/
def main (GetId : NodeRef → Nat) (intraGroupDistance speed : ℚ) :
    Except String (List Call) := do
  let topology ← buildTopology1 intraGroupDistance speed
  pure (topology ++ installGroup 1 "10.1.1.0" ++ [.PairDevices (devs 1)] ++ defaultRoutes 1
    ++ newTraffic GetId)

end New

namespace TwoPlatSem

/-- The calls issued by `main` of `vehicular-threeTransmitters_2plat_sem.cc`.  The source
installs the devices and the internet stack of both groups before assigning addresses. -/
def main (GetId : NodeRef → Nat) (orthogonalResources : Bool)
    (intraGroupDistance interGroupDistance speed : ℚ) : Except String (List Call) := do
  let topology ← buildTopology2 intraGroupDistance interGroupDistance speed
  pure (topology
    ++ [ .InstallMmWaveVehicularNetDevices 1, .InstallMmWaveVehicularNetDevices 2,
         .InstallInternet 1, .InstallInternet 2,
         .Assign "10.1.1.0" 1, .Assign "10.1.2.0" 2 ]
    ++ pairing2 orthogonalResources ++ defaultRoutes 1 ++ defaultRoutes 2
    ++ twoPlatTraffic GetId)

end TwoPlatSem

/-! ## Observations on a call sequence -/

/-- The position a node has once the calls have run: the argument of its last `SetPosition`. -/
def positionOf (calls : List Call) (node : NodeRef) : Option Vector :=
  calls.foldl (fun acc c =>
    match c with
    | .SetPosition n v => if n = node then some v else acc
    | _ => acc) none

/-- The velocity a node has once the calls have run: the argument of its last `SetVelocity`. -/
def velocityOf (calls : List Call) (node : NodeRef) : Option Vector :=
  calls.foldl (fun acc c =>
    match c with
    | .SetVelocity n v => if n = node then some v else acc
    | _ => acc) none

/-- The argument lists of the `PairDevices` calls, in call order. -/
def pairCalls (calls : List Call) : List (List Device) :=
  calls.filterMap (fun c => match c with | .PairDevices d => some d | _ => none)

/-- Every device created by an `InstallMmWaveVehicularNetDevices` call. -/
def installedDevices (calls : List Call) : List Device :=
  (calls.filterMap (fun c =>
    match c with
    | .InstallMmWaveVehicularNetDevices g => some (devs g)
    | _ => none)).flatten

/-- The call is a `PairDevices`. -/
def Call.isPairDevices : Call → Bool
  | .PairDevices _ => true
  | _ => false

/-- The call installs or starts a traffic application (source or sink). -/
def Call.isTrafficApp : Call → Bool
  | .InstallOnOff _ _ _ => true
  | .InstallPacketSink _ _ => true
  | .InstallBursty _ _ _ => true
  | .InstallBurstSink _ _ => true
  | .Start _ _ => true
  | .StartWithJitter _ _ => true
  | _ => false

/-- The calls of a successful run, and none for a failed one. -/
def callsOf (r : Except String (List Call)) : List Call :=
  match r with
  | .ok calls => calls
  | .error _ => []

/-- The run ended with a fatal error. -/
def failed (r : Except String (List Call)) : Bool :=
  match r with
  | .ok _ => false
  | .error _ => true

/-- Displacement from node `k` to node `k + 1` of a group once the calls have run. -/
def spacing (calls : List Call) (group k : Nat) : Option Vector :=
  match positionOf calls ⟨group, k + 1⟩, positionOf calls ⟨group, k⟩ with
  | some a, some b => some (a.sub b)
  | _, _ => none

/-- Number of `PairDevices` calls whose argument holds the device. -/
def pairCount (calls : List Call) (dev : Device) : Nat :=
  (pairCalls calls).countP (fun l => decide (dev ∈ l))

/-- Every `PairDevices` call is issued before every call that installs or starts a traffic
application. -/
def PairingPrecedesTraffic (calls : List Call) : Prop :=
  ∀ (i j : Nat) (hi : i < calls.length) (hj : j < calls.length),
    calls[i].isPairDevices = true → calls[j].isTrafficApp = true → i < j

/-- Node ids handed out in creation order, as the simulator's node list does: `group1` gets
0..3 and `group2` gets 4..7. -/
def creationOrderId (n : NodeRef) : Nat := 4 * (n.group - 1) + n.index

/-- The arguments of the `SetVelocity` calls, in call order. -/
def velocityCalls (calls : List Call) : List (NodeRef × Vector) :=
  calls.filterMap (fun c => match c with | .SetVelocity n v => some (n, v) | _ => none)

/-- The argument of `Simulator::Stop`, when it is called. -/
def simulatorStopOf (calls : List Call) : Option Int :=
  calls.foldl (fun acc c => match c with | .SimulatorStop t => some t | _ => acc) none

/-- The stop time given to the applications of a container, when `Stop` is called on it. -/
def appStopOf (calls : List Call) (apps : AppContainer) : Option Int :=
  calls.foldl (fun acc c =>
    match c with
    | .Stop a t => if a = apps then some t else acc
    | _ => acc) none

/-- What a log line is made of: a character of literal text, or an inserted value. -/
inductive Atom where
  | char (c : Char)
  | value (t : Token)
  deriving DecidableEq

/-- The atoms a token contributes to its line: a string gives its characters, any other value
gives itself. -/
def Token.atoms : Token → List Atom
  | .str s => s.data.map Atom.char
  | t => [Atom.value t]

/-- The atom is a tab character. -/
def Atom.isTab : Atom → Bool
  | .char c => c == '\t'
  | .value _ => false

/-- The token is `std::endl`. -/
def Token.isEndl : Token → Bool
  | .endl => true
  | _ => false

/-- The text of a literal as atoms. -/
def literal (s : String) : List Atom := s.data.map Atom.char

/-- The tab-separated fields of the first line held by a token sequence: the tokens before
`std::endl`, split at every tab character. -/
def fields (toks : List Token) : List (List Atom) :=
  List.splitOnP Atom.isTab ((toks.takeWhile (fun t => !t.isEndl)).flatMap Token.atoms)

/-! ## Observations on the flow set-up -/

/-- The `BurstyApplication`s added to `clientApps`, in container order, each with the node it is
installed on and the node and port it sends to. -/
def burstySources (calls : List Call) : List (NodeRef × NodeRef × Nat) :=
  calls.filterMap (fun c =>
    match c with
    | .InstallBursty node remote port => some (node, remote, port)
    | _ => none)

/-- The `BurstSink`s added to `serverApps`, in container order, each with the node it is
installed on and the port it listens on. -/
def burstSinks (calls : List Call) : List (NodeRef × Nat) :=
  calls.filterMap (fun c =>
    match c with
    | .InstallBurstSink node port => some (node, port)
    | _ => none)

/-- The statistics calculators bound to the `BurstTx` hook of the source at a `clientApps`
index. -/
def txStats (calls : List Call) (clientIndex : Nat) : List Nat :=
  calls.filterMap (fun c =>
    match c with
    | .ConnectBurstTx ci _ stats => if ci = clientIndex then some stats else none
    | _ => none)

/-- The node ids bound to the `BurstTx` hook of the source at a `clientApps` index. -/
def txNodeIds (calls : List Call) (clientIndex : Nat) : List Nat :=
  calls.filterMap (fun c =>
    match c with
    | .ConnectBurstTx ci nodeId _ => if ci = clientIndex then some nodeId else none
    | _ => none)

/-- The statistics calculators bound to the `BurstRx` hook of the sink at a `serverApps`
index. -/
def rxStats (calls : List Call) (serverIndex : Nat) : List Nat :=
  calls.filterMap (fun c =>
    match c with
    | .ConnectBurstRx si _ stats => if si = serverIndex then some stats else none
    | _ => none)

/-- The statistics calculators created, in creation order. -/
def createdStats (calls : List Call) : List Nat :=
  calls.filterMap (fun c => match c with | .CreateStatsCalculator stats => some stats | _ => none)

/-- The `OutputFilename` attribute of a statistics calculator once the calls have run. -/
def filenameOf (calls : List Call) (stats : Nat) : Option String :=
  calls.foldl (fun acc c =>
    match c with
    | .SetOutputFilename s name => if s = stats then some name else acc
    | _ => acc) none

/-- The sink a source sends to: the `serverApps` index of the sink installed on the source's
remote node and listening on the source's remote port. -/
def sinkOfSource (calls : List Call) (clientIndex : Nat) : Option Nat :=
  match (burstySources calls)[clientIndex]? with
  | some (_, remote, port) => (burstSinks calls).indexOf? (remote, port)
  | none => none

/-- The bodies of the two flow loops of the two-group scenario in execution order: iterations
0, 1, 2 of the group-1 loop, then iterations 0, 1, 2 of the group-2 loop. -/
def twoPlatBodies (GetId : NodeRef → Nat) : List (Builder → Builder) :=
  (List.range 3).map (fun i b => flowBodyGroup1 GetId b i)
    ++ (List.range 3).map (fun i b => flowBodyGroup2 GetId b i)

/-- The loop state of the two-group scenario after its first `n` loop iterations. -/
def twoPlatBuilder (GetId : NodeRef → Nat) (n : Nat) : Builder :=
  ((twoPlatBodies GetId).take n).foldl (fun b body => body b) Builder.init

/-- The calls issued by loop iteration `n` (counted from 0 across both loops) of the two-group
scenario. -/
def twoPlatIteration (GetId : NodeRef → Nat) (n : Nat) : List Call :=
  (twoPlatBuilder GetId (n + 1)).calls.drop (twoPlatBuilder GetId n).calls.length

/-- One row of the table printed at the end of the two-group scenario: the number in the `Dev`
column and the indices used in `clientApps.Get` and `serverApps.Get`. -/
structure Row where
  label : Nat
  clientIndex : Nat
  serverIndex : Nat
  deriving DecidableEq

/-- The rows of the final table of `vehicular-threeTransmitters_2plat_sem.cc`: the loop
`for (int i = 0; i < 3; i++)` printing `i+1`, then `for (int i = 3; i < 6; i++)` printing
`i+2`; both read `clientApps.Get (i)` and `serverApps.Get (i)`. -/
def TwoPlatSem.finalTable : List Row :=
  (List.range' 0 3).map (fun i => ⟨i + 1, i, i⟩) ++ (List.range' 3 3).map (fun i => ⟨i + 2, i, i⟩)

/-! ## Start times, sources, sinks and routes -/

/-- The `Min` attribute of the `UniformRandomVariable` passed to `StartWithJitter`, in seconds
(the same in both trace-driven scenarios). -/
def jitterMin : ℚ := 0

/-- The `Max` attribute of the `UniformRandomVariable` passed to `StartWithJitter`, in
seconds. -/
def jitterMax : ℚ := 1

/-- Modelled from the spec: `ApplicationContainer::StartWithJitter (start, rv)` of the simulator
library, whose code is not among the scenario sources.  "Start time across multiple flows is
independently jittered by a uniform random offset within a configured window": each
application of the container starts at `start` plus its own draw of `rv`.  `draws` holds one
draw per application, in seconds and in container order; the result is in nanoseconds. -/
def jitteredStarts (start : Int) (draws : List ℚ) : List ℚ :=
  draws.map (fun v => (start : ℚ) + v * 1000000000)

/-- The base time of the `StartWithJitter` call on a container, when there is one. -/
def jitterBaseOf (calls : List Call) (apps : AppContainer) : Option Int :=
  calls.foldl (fun acc c =>
    match c with
    | .StartWithJitter a t => if a = apps then some t else acc
    | _ => acc) none

/-- The start times (ns) of the applications of `clientApps` for given jitter draws. -/
def clientStartTimes (calls : List Call) (draws : List ℚ) : List ℚ :=
  match jitterBaseOf calls AppContainer.clientApps with
  | some start => jitteredStarts start draws
  | none => []

/-- The traffic sources installed, each with its node and the node whose address it sends to. -/
def sourceInstalls (calls : List Call) : List (NodeRef × NodeRef) :=
  calls.filterMap (fun c =>
    match c with
    | .InstallOnOff node remote _ => some (node, remote)
    | .InstallBursty node remote _ => some (node, remote)
    | _ => none)

/-- The nodes on which a traffic sink is installed, one entry per sink application. -/
def sinkInstalls (calls : List Call) : List NodeRef :=
  calls.filterMap (fun c =>
    match c with
    | .InstallPacketSink node _ => some node
    | .InstallBurstSink node _ => some node
    | _ => none)

/-- The default routes set, each with the routing node and the next-hop node. -/
def routesOf (calls : List Call) : List (NodeRef × NodeRef) :=
  calls.filterMap (fun c =>
    match c with
    | .SetDefaultRoute node nextHop => some (node, nextHop)
    | _ => none)

/-- Scalar product of two vectors. -/
def Vector.dot (a b : Vector) : ℚ := a.x * b.x + a.y * b.y + a.z * b.z

/-- Node `front` is ahead of node `other`: measured along the velocity of `front` (the direction
of travel), the position of `front` is strictly further than that of `other`. -/
def IsAhead (calls : List Call) (front other : NodeRef) : Prop :=
  ∃ p q v : Vector,
    positionOf calls front = some p ∧ positionOf calls other = some q ∧
    velocityOf calls front = some v ∧ q.dot v < p.dot v

/-! ## Addresses and destinations -/

/-- The address `ipv4.Assign (devsN)` gives to the device of a node: the network base set with
`SetBase` before the call, and the host number, handed out in container order from 1. -/
def addressOf (calls : List Call) (node : NodeRef) : Option (String × Nat) :=
  calls.foldl (fun acc c =>
    match c with
    | .Assign base group => if group = node.group then some (base, node.index + 1) else acc
    | _ => acc) none

/-- The (destination address, destination port) pair of every source in `clientApps`, in
container order. -/
def destinations (calls : List Call) : List (Option (String × Nat) × Nat) :=
  (burstySources calls).map (fun s => (addressOf calls s.2.1, s.2.2))

/-- For every sink in `serverApps`, in container order, the number of sources that send to the
node it is installed on and to the port it listens on. -/
def sourcesPerSink (calls : List Call) : List Nat :=
  (burstSinks calls).map (fun sink =>
    (burstySources calls).countP (fun s => decide ((s.2.1, s.2.2) = sink)))

/-- The calls issued by iteration `n` of the flow loop of the single-group trace-driven
scenario. -/
def newIteration (GetId : NodeRef → Nat) (n : Nat) : List Call :=
  ((List.range (n + 1)).foldl (flowBodyNew GetId) Builder.init).calls.drop
    ((List.range n).foldl (flowBodyNew GetId) Builder.init).calls.length

/-! ## Auxiliary lemmas -/

theorem digitChar_ne_minus (d : Nat) (hd : d < 10) : Nat.digitChar d ≠ '-' := by
  interval_cases d <;> decide

theorem toDigitsCore_ne_minus (fuel : Nat) :
    ∀ (n : Nat) (acc : List Char), (∀ c ∈ acc, c ≠ '-') →
      ∀ c ∈ Nat.toDigitsCore 10 fuel n acc, c ≠ '-' := by
  induction fuel with
  | zero => intro n acc hacc c hc; simpa [Nat.toDigitsCore] using hacc c hc
  | succ fuel ih =>
    intro n acc hacc c hc
    have hd : Nat.digitChar (n % 10) ≠ '-' := digitChar_ne_minus _ (Nat.mod_lt _ (by decide))
    have hacc2 : ∀ c ∈ Nat.digitChar (n % 10) :: acc, c ≠ '-' := by
      intro c hc
      rcases List.mem_cons.mp hc with h | h
      · exact h ▸ hd
      · exact hacc c h
    simp only [Nat.toDigitsCore] at hc
    by_cases h0 : n / 10 = 0
    · rw [if_pos h0] at hc
      exact hacc2 c hc
    · rw [if_neg h0] at hc
      exact ih _ _ hacc2 c hc

/-- The decimal text of an unsigned value never reads `-1`. -/
theorem natText_ne_minus_one (n : Nat) : toString n ≠ "-1" := by
  intro h
  have hmem : '-' ∈ Nat.toDigits 10 n := by
    have h2 : (Nat.toDigits 10 n).asString = "-1" := h
    have h3 : Nat.toDigits 10 n = ['-', '1'] := by
      have := congrArg String.data h2
      simpa using this
    rw [h3]; simp
  exact toDigitsCore_ne_minus _ _ [] (by simp) '-' hmem rfl

theorem countTx_cons (e : Event) (es : List Event) :
    countTx (e :: es) = countTx es + (match e with | .tx _ _ _ => 1 | .rx _ _ => 0) := by
  cases e <;> simp [countTx]

theorem countRx_cons (e : Event) (es : List Event) :
    countRx (e :: es) = countRx es + (match e with | .tx _ _ _ => 0 | .rx _ _ => 1) := by
  cases e <;> simp [countRx]

/-- The transmit counter after a run is the number of `Tx` invocations added modulo `2 ^ 32`. -/
theorem runFrom_tx (es : List Event) :
    ∀ s : State, (runFrom s es).g_txPacketsGroup1 % 2 ^ 32
      = (s.g_txPacketsGroup1 + countTx es) % 2 ^ 32 := by
  induction es with
  | nil => intro s; simp [runFrom, countTx]
  | cons e es ih =>
    intro s
    have h := ih (step s e)
    simp only [runFrom, List.foldl_cons] at h ⊢
    rw [h, countTx_cons]
    cases e
    · simp only [step, Tx]; omega
    · simp only [step, Rx]; omega

/-- The receive counter after a run is the number of `Rx` invocations added modulo `2 ^ 32`. -/
theorem runFrom_rx (es : List Event) :
    ∀ s : State, (runFrom s es).g_rxPacketsGroup1 % 2 ^ 32
      = (s.g_rxPacketsGroup1 + countRx es) % 2 ^ 32 := by
  induction es with
  | nil => intro s; simp [runFrom, countRx]
  | cons e es ih =>
    intro s
    have h := ih (step s e)
    simp only [runFrom, List.foldl_cons] at h ⊢
    rw [h, countRx_cons]
    cases e
    · simp only [step, Tx]; omega
    · simp only [step, Rx]; omega

/-- Both counters stay below `2 ^ 32` when they start there. -/
theorem runFrom_lt (es : List Event) :
    ∀ s : State, s.g_txPacketsGroup1 < 2 ^ 32 → s.g_rxPacketsGroup1 < 2 ^ 32 →
      (runFrom s es).g_txPacketsGroup1 < 2 ^ 32 ∧ (runFrom s es).g_rxPacketsGroup1 < 2 ^ 32 := by
  induction es with
  | nil => intro s h1 h2; exact ⟨h1, h2⟩
  | cons e es ih =>
    intro s h1 h2
    simp only [runFrom, List.foldl_cons]
    apply ih
    · cases e <;> simp [step, Tx, Rx] <;> omega
    · cases e <;> simp [step, Tx, Rx] <;> omega

theorem run_tx (es : List Event) : (run es).g_txPacketsGroup1 = countTx es % 2 ^ 32 := by
  have h := runFrom_tx es State.init
  have hlt := (runFrom_lt es State.init (by decide) (by decide)).1
  simp only [State.init, Nat.zero_add] at h
  rw [← h]
  exact (Nat.mod_eq_of_lt hlt).symm

theorem run_rx (es : List Event) : (run es).g_rxPacketsGroup1 = countRx es % 2 ^ 32 := by
  have h := runFrom_rx es State.init
  have hlt := (runFrom_lt es State.init (by decide) (by decide)).2
  simp only [State.init, Nat.zero_add] at h
  rw [← h]
  exact (Nat.mod_eq_of_lt hlt).symm

theorem countTx_replicate_tx (n : Nat) (device now : Int) (p : Packet) :
    countTx (List.replicate n (Event.tx device now p)) = n := by
  simp [countTx, List.countP_replicate]

theorem countRx_replicate_tx (n : Nat) (device now : Int) (p : Packet) :
    countRx (List.replicate n (Event.tx device now p)) = 0 := by
  simp [countRx, List.countP_replicate]

theorem countTx_append (xs ys : List Event) : countTx (xs ++ ys) = countTx xs + countTx ys := by
  simp [countTx]

theorem countRx_append (xs ys : List Event) : countRx (xs ++ ys) = countRx xs + countRx ys := by
  simp [countRx]

theorem countTx_le_of_prefix {pre es : List Event} (h : pre <+: es) :
    countTx pre ≤ countTx es := by
  obtain ⟨t, rfl⟩ := h
  rw [countTx_append]; omega

/-! ## The `Rx` callback: delay column -/

/-- C1: in `Rx`, for every receive time and every packet whose header timestamp is exactly
0 ns, the line appended to the log carries the `int` sentinel `-1` in the delay column, printed
as the text `-1`; the column is not the computed `uint64_t` delay, whose text differs from `-1`
whatever the receive time is. -/
theorem Rx_zero_timestamp_writes_sentinel (s : State) (now : Int) (packet : Packet)
    (fmtDouble : DoubleVal → String) (hts : packet.ts = 0) :
    (Rx s now packet).stream = s.stream ++ RxLine now packet ∧
    delayField (RxLine now packet) = some (Token.int (-1)) ∧
    (Token.int (-1)).text fmtDouble = "-1" ∧
    delayField (RxLine now packet) ≠ some (Token.u64 (delayNs now 0)) ∧
    (Token.u64 (delayNs now 0)).text fmtDouble ≠ (Token.int (-1)).text fmtDouble := by
  refine ⟨rfl, ?_, rfl, ?_, ?_⟩
  · simp [RxLine, hts, delayField]
  · simp [RxLine, hts, delayField]
  · simpa [Token.text] using natText_ne_minus_one (delayNs now 0)

/-- Witness for C1: a packet of 512 bytes with timestamp 0 received at 5 ns. -/
theorem Rx_zero_timestamp_writes_sentinel_witness :
    (Rx State.init 5 ⟨512, 0⟩).stream = State.init.stream ++ RxLine 5 ⟨512, 0⟩ ∧
    delayField (RxLine 5 ⟨512, 0⟩) = some (Token.int (-1)) ∧
    (Token.int (-1)).text (fun _ => "") = "-1" ∧
    delayField (RxLine 5 ⟨512, 0⟩) ≠ some (Token.u64 (delayNs 5 0)) ∧
    (Token.u64 (delayNs 5 0)).text (fun _ => "") ≠ (Token.int (-1)).text (fun _ => "") :=
  Rx_zero_timestamp_writes_sentinel State.init 5 ⟨512, 0⟩ (fun _ => "") rfl

/-- C2 as stated fails: a packet stamped 1 ns and received at time 0 is logged with delay
`2 ^ 64 - 1`, not with the integer `0 - 1`. -/
theorem Rx_delay_counterexample :
    (⟨512, 1⟩ : Packet).ts ≠ 0 ∧
    delayField (RxLine 0 ⟨512, 1⟩) = some (Token.u64 18446744073709551615) ∧
    ((18446744073709551615 : Nat) : Int) ≠ 0 - (⟨512, 1⟩ : Packet).ts := by
  refine ⟨by decide, ?_, by decide⟩
  simp [RxLine, delayField, delayNs]

/-- C2 (amended): in `Rx`, for every receive time `now` and every non-zero header timestamp
`ts` that is not later than `now` (both `int64_t` nanosecond counts), the delay written to the
log is the `uint64_t` whose value is the integer `now - ts`. -/
theorem Rx_delay_eq_sub (now : Int) (packet : Packet)
    (hts : packet.ts ≠ 0) (hle : packet.ts ≤ now)
    (hlo : -(2 ^ 63 : Int) ≤ packet.ts) (hhi : now < 2 ^ 63) :
    ∃ d : Nat, delayField (RxLine now packet) = some (Token.u64 d) ∧
      (d : Int) = now - packet.ts := by
  refine ⟨delayNs now packet.ts, ?_, ?_⟩
  · simp [RxLine, hts, delayField]
  · unfold delayNs
    have h0 : 0 ≤ now - packet.ts := by omega
    have h1 : now - packet.ts < 2 ^ 64 := by omega
    rw [Int.emod_eq_of_lt h0 h1]
    exact Int.toNat_of_nonneg h0

/-- Witness for C2 (amended): stamped at 100 ns, received at 350 ns. -/
theorem Rx_delay_eq_sub_witness :
    ∃ d : Nat, delayField (RxLine 350 ⟨512, 100⟩) = some (Token.u64 d) ∧
      (d : Int) = 350 - (⟨512, 100⟩ : Packet).ts :=
  Rx_delay_eq_sub 350 ⟨512, 100⟩ (by decide) (by decide) (by decide) (by decide)

/-! ## The global counters and the reception ratio -/

/-- C3 as stated fails: after the single invocation `Rx` the received counter is 1 and the
transmitted counter 0; and after `2 ^ 32` invocations of `Tx` followed by one `Rx` the
transmitted counter has wrapped to 0 while the received counter is 1. -/
theorem tx_ge_rx_counterexample :
    ([Event.rx 0 ⟨512, 0⟩] <+: [Event.rx 0 ⟨512, 0⟩] ∧
      ¬ (run [Event.rx 0 ⟨512, 0⟩]).g_txPacketsGroup1
          ≥ (run [Event.rx 0 ⟨512, 0⟩]).g_rxPacketsGroup1) ∧
    ¬ (run (List.replicate 4294967296 (Event.tx 0 0 ⟨512, 0⟩)
          ++ [Event.rx 0 ⟨512, 0⟩])).g_txPacketsGroup1
        ≥ (run (List.replicate 4294967296 (Event.tx 0 0 ⟨512, 0⟩)
          ++ [Event.rx 0 ⟨512, 0⟩])).g_rxPacketsGroup1 := by
  refine ⟨⟨List.prefix_refl _, by decide⟩, ?_⟩
  rw [run_tx, run_rx, countTx_append, countRx_append, countTx_replicate_tx,
    countRx_replicate_tx]
  decide

/-- C3 (amended): for every sequence of `Tx` and `Rx` invocations in which each prefix holds
at least as many `Tx` as `Rx` invocations and which holds fewer than `2 ^ 32` `Tx` invocations,
after every prefix the transmitted counter is at least the received counter. -/
theorem tx_ge_rx_of_causal (es : List Event)
    (hcausal : ∀ pre : List Event, pre <+: es → countRx pre ≤ countTx pre)
    (hbound : countTx es < 2 ^ 32) :
    ∀ pre : List Event, pre <+: es →
      (run pre).g_txPacketsGroup1 ≥ (run pre).g_rxPacketsGroup1 := by
  intro pre hpre
  have h1 : countRx pre ≤ countTx pre := hcausal pre hpre
  have h2 : countTx pre ≤ countTx es := countTx_le_of_prefix hpre
  rw [run_tx, run_rx, Nat.mod_eq_of_lt (by omega), Nat.mod_eq_of_lt (by omega)]
  exact h1

/-- Witness for C3 (amended): two transmissions, the first of them received; the counters
after the prefix made of the first transmission and its reception. -/
theorem tx_ge_rx_of_causal_witness :
    (run [Event.tx 0 100 ⟨512, 100⟩, Event.rx 350 ⟨512, 100⟩]).g_txPacketsGroup1
      ≥ (run [Event.tx 0 100 ⟨512, 100⟩, Event.rx 350 ⟨512, 100⟩]).g_rxPacketsGroup1 :=
  tx_ge_rx_of_causal
    [Event.tx 0 100 ⟨512, 100⟩, Event.rx 350 ⟨512, 100⟩, Event.tx 1 400 ⟨512, 400⟩]
    (by
      have key : ∀ pre ∈ List.inits [Event.tx 0 100 ⟨512, 100⟩, Event.rx 350 ⟨512, 100⟩,
          Event.tx 1 400 ⟨512, 400⟩], countRx pre ≤ countTx pre := by decide
      intro pre hpre
      exact key pre ((List.mem_inits _ _).mpr hpre))
    (by decide)
    [Event.tx 0 100 ⟨512, 100⟩, Event.rx 350 ⟨512, 100⟩]
    ⟨[Event.tx 1 400 ⟨512, 400⟩], rfl⟩

/-- C4 as stated fails: with both counters 0 at the end of the run the program streams the
`double` quotient, which is NaN, after `"PRR "`; it does not report `undefined`. -/
theorem prr_zero_tx_counterexample :
    (run []).g_txPacketsGroup1 = 0 ∧
    prrOutput (run []) = [Token.str "PRR ", Token.dbl DoubleVal.nan, Token.endl] ∧
    Token.str "undefined" ∉ prrOutput (run []) := by
  decide

/-- C4 (amended): when the transmitted counter is 0 at the end of the run, the ratio is still
computed without a fault, and the program prints the `double` quotient itself: NaN when the
received counter is 0 as well, infinity otherwise. -/
theorem prr_zero_tx (s : State) (htx : s.g_txPacketsGroup1 = 0) :
    prrOutput s
      = [Token.str "PRR ",
         Token.dbl (if s.g_rxPacketsGroup1 = 0 then DoubleVal.nan else DoubleVal.inf),
         Token.endl] := by
  simp [prrOutput, PRR, doubleDiv, htx]

/-- Witness for C4 (amended): a run with one reception and no transmission prints infinity. -/
theorem prr_zero_tx_witness :
    prrOutput (run [Event.rx 0 ⟨512, 0⟩])
      = [Token.str "PRR ",
         Token.dbl (if (run [Event.rx 0 ⟨512, 0⟩]).g_rxPacketsGroup1 = 0
           then DoubleVal.nan else DoubleVal.inf),
         Token.endl] :=
  prr_zero_tx (run [Event.rx 0 ⟨512, 0⟩]) (by decide)

/-- C5 as stated fails: a run with one `Tx` and two `Rx` invocations prints the ratio 2; and
a run of `2 ^ 32` `Tx` invocations leaves both counters at 0 and prints NaN. -/
theorem prr_unit_interval_counterexample :
    (0 < countTx [Event.tx 0 0 ⟨512, 0⟩, Event.rx 1 ⟨512, 0⟩, Event.rx 2 ⟨512, 0⟩] ∧
      PRR (run [Event.tx 0 0 ⟨512, 0⟩, Event.rx 1 ⟨512, 0⟩, Event.rx 2 ⟨512, 0⟩])
        = DoubleVal.finite 2 ∧
      ¬ (PRR (run [Event.tx 0 0 ⟨512, 0⟩, Event.rx 1 ⟨512, 0⟩,
          Event.rx 2 ⟨512, 0⟩])).inUnitInterval) ∧
    (0 < countTx (List.replicate 4294967296 (Event.tx 0 0 ⟨512, 0⟩)) ∧
      PRR (run (List.replicate 4294967296 (Event.tx 0 0 ⟨512, 0⟩))) = DoubleVal.nan ∧
      ¬ (PRR (run (List.replicate 4294967296 (Event.tx 0 0 ⟨512, 0⟩)))).inUnitInterval) := by
  have h1 : PRR (run [Event.tx 0 0 ⟨512, 0⟩, Event.rx 1 ⟨512, 0⟩, Event.rx 2 ⟨512, 0⟩])
      = DoubleVal.finite 2 := by
    simp only [PRR, run_tx, run_rx]
    norm_num [countTx, countRx, doubleDiv]
  have h2 : PRR (run (List.replicate 4294967296 (Event.tx 0 0 ⟨512, 0⟩))) = DoubleVal.nan := by
    simp only [PRR, run_tx, run_rx, countTx_replicate_tx, countRx_replicate_tx]
    rfl
  refine ⟨⟨by decide, h1, ?_⟩, ⟨?_, h2, ?_⟩⟩
  · rw [h1]; norm_num [DoubleVal.inUnitInterval]
  · rw [countTx_replicate_tx]; decide
  · rw [h2]; simp [DoubleVal.inUnitInterval]

/-- C5 (amended): for every run with at least one and fewer than `2 ^ 32` `Tx` invocations and
no more `Rx` than `Tx` invocations, the printed reception ratio is the quotient of the received
by the transmitted counter and lies in the closed interval `[0, 1]`. -/
theorem prr_in_unit_interval (es : List Event)
    (hpos : 0 < countTx es) (hbound : countTx es < 2 ^ 32)
    (hle : countRx es ≤ countTx es) :
    PRR (run es) = DoubleVal.finite ((countRx es : ℚ) / (countTx es : ℚ)) ∧
    (PRR (run es)).inUnitInterval := by
  have hq : PRR (run es) = DoubleVal.finite ((countRx es : ℚ) / (countTx es : ℚ)) := by
    simp only [PRR, run_tx, run_rx]
    rw [Nat.mod_eq_of_lt hbound, Nat.mod_eq_of_lt (by omega)]
    simp [doubleDiv, Nat.pos_iff_ne_zero.mp hpos]
  refine ⟨hq, ?_⟩
  rw [hq]
  have hT : (0 : ℚ) < (countTx es : ℚ) := by exact_mod_cast hpos
  have hR : (countRx es : ℚ) ≤ (countTx es : ℚ) := by exact_mod_cast hle
  exact ⟨by positivity, (div_le_one hT).mpr hR⟩

/-- Witness for C5 (amended): two transmissions, one reception. -/
theorem prr_in_unit_interval_witness :
    PRR (run [Event.tx 0 100 ⟨512, 100⟩, Event.rx 350 ⟨512, 100⟩, Event.tx 1 400 ⟨512, 400⟩])
      = DoubleVal.finite
          ((countRx [Event.tx 0 100 ⟨512, 100⟩, Event.rx 350 ⟨512, 100⟩,
              Event.tx 1 400 ⟨512, 400⟩] : ℚ)
            / (countTx [Event.tx 0 100 ⟨512, 100⟩, Event.rx 350 ⟨512, 100⟩,
              Event.tx 1 400 ⟨512, 400⟩] : ℚ)) ∧
    (PRR (run [Event.tx 0 100 ⟨512, 100⟩, Event.rx 350 ⟨512, 100⟩,
      Event.tx 1 400 ⟨512, 400⟩])).inUnitInterval :=
  prr_in_unit_interval
    [Event.tx 0 100 ⟨512, 100⟩, Event.rx 350 ⟨512, 100⟩, Event.tx 1 400 ⟨512, 400⟩]
    (by decide) (by decide) (by decide)

/-! ## Device pairing -/

theorem pairCalls_append (xs ys : List Call) :
    pairCalls (xs ++ ys) = pairCalls xs ++ pairCalls ys := by
  simp [pairCalls, List.filterMap_append]

theorem pairCalls_twoPlatTraffic (GetId : NodeRef → Nat) :
    pairCalls (twoPlatTraffic GetId) = [] := rfl

theorem pairCalls_newTraffic (GetId : NodeRef → Nat) : pairCalls (newTraffic GetId) = [] := rfl

theorem pairCalls_placeGroup (group : Nat) (d y speed : ℚ) :
    pairCalls (placeGroup group d y speed) = [] := rfl

/-- C6: in the two-group scenario, with `orthogonalResources` true `PairDevices` is called
exactly once, on the container holding the devices of group 1 followed by those of group 2;
with `orthogonalResources` false it is called exactly twice, first on the devices of group 1
alone and then on those of group 2 alone. -/
theorem pairing_follows_mode (GetId : NodeRef → Nat)
    (intraGroupDistance interGroupDistance speed : ℚ) :
    pairCalls (callsOf (TwoPlatSem.main GetId true intraGroupDistance interGroupDistance speed))
      = [devs 1 ++ devs 2] ∧
    pairCalls (callsOf (TwoPlatSem.main GetId false intraGroupDistance interGroupDistance speed))
      = [devs 1, devs 2] := by
  constructor <;>
    simp [TwoPlatSem.main, buildTopology2, callsOf, bind, Except.bind, pure, Except.pure,
      pairCalls_append, pairCalls_twoPlatTraffic, pairCalls_placeGroup, pairing2] <;>
    rfl

theorem installedDevices_append (xs ys : List Call) :
    installedDevices (xs ++ ys) = installedDevices xs ++ installedDevices ys := by
  simp [installedDevices, List.filterMap_append]

theorem installedDevices_twoPlatTraffic (GetId : NodeRef → Nat) :
    installedDevices (twoPlatTraffic GetId) = [] := rfl

theorem installedDevices_newTraffic (GetId : NodeRef → Nat) :
    installedDevices (newTraffic GetId) = [] := rfl

theorem installedDevices_placeGroup (group : Nat) (d y speed : ℚ) :
    installedDevices (placeGroup group d y speed) = [] := rfl

/-- A call sequence that splits into a part without traffic applications followed by a part
without `PairDevices` has every pairing before every traffic application. -/
theorem pairingPrecedesTraffic_of_split (pre post : List Call)
    (hpre : ∀ c ∈ pre, c.isTrafficApp = false)
    (hpost : ∀ c ∈ post, c.isPairDevices = false) :
    PairingPrecedesTraffic (pre ++ post) := by
  intro i j hi hj hp ht
  by_contra hij
  have hji : j ≤ i := Nat.le_of_not_lt hij
  by_cases hlt : i < pre.length
  · have hjlt : j < pre.length := Nat.lt_of_le_of_lt hji hlt
    rw [List.getElem_append_left hjlt] at ht
    have := hpre _ (List.getElem_mem hjlt)
    rw [this] at ht
    exact Bool.noConfusion ht
  · have hge : pre.length ≤ i := Nat.le_of_not_lt hlt
    rw [List.getElem_append_right hge] at hp
    have hlen : i - pre.length < post.length := by
      rw [List.length_append] at hi; omega
    have := hpost (post[i - pre.length]) (List.getElem_mem hlen)
    rw [this] at hp
    exact Bool.noConfusion hp

theorem pairingPrecedesTraffic_of_all (pre post : List Call)
    (hpre : pre.all (fun c => !c.isTrafficApp) = true)
    (hpost : post.all (fun c => !c.isPairDevices) = true) :
    PairingPrecedesTraffic (pre ++ post) := by
  apply pairingPrecedesTraffic_of_split
  · intro c hc
    have := List.all_eq_true.mp hpre c hc
    simpa using this
  · intro c hc
    have := List.all_eq_true.mp hpost c hc
    simpa using this

theorem OnOff_main_precedes (startTime stopTime : Nat) (intraGroupDistance speed : ℚ) :
    PairingPrecedesTraffic (callsOf (OnOff.main startTime stopTime intraGroupDistance speed)) :=
  pairingPrecedesTraffic_of_all
    ([Call.Create 1 4, Call.InstallMobility 1] ++ placeGroup 1 intraGroupDistance 0 speed
      ++ installGroup 1 "10.1.1.0" ++ [Call.PairDevices (devs 1)] ++ defaultRoutes 1)
    (onOffTraffic startTime stopTime) rfl rfl

theorem New_main_precedes (GetId : NodeRef → Nat) (intraGroupDistance speed : ℚ) :
    PairingPrecedesTraffic (callsOf (New.main GetId intraGroupDistance speed)) :=
  pairingPrecedesTraffic_of_all
    ([Call.Create 1 4, Call.InstallMobility 1] ++ placeGroup 1 intraGroupDistance 0 speed
      ++ installGroup 1 "10.1.1.0" ++ [Call.PairDevices (devs 1)] ++ defaultRoutes 1)
    (newTraffic GetId) rfl rfl

theorem TwoPlatSem_main_precedes (GetId : NodeRef → Nat) (orthogonalResources : Bool)
    (intraGroupDistance interGroupDistance speed : ℚ) :
    PairingPrecedesTraffic (callsOf
      (TwoPlatSem.main GetId orthogonalResources intraGroupDistance interGroupDistance speed)) :=
  pairingPrecedesTraffic_of_all
    ([Call.Create 1 4, Call.Create 2 4, Call.InstallMobility 1, Call.InstallMobility 2]
      ++ placeGroup 1 intraGroupDistance 0 speed
      ++ placeGroup 2 intraGroupDistance interGroupDistance speed
      ++ [ Call.InstallMmWaveVehicularNetDevices 1, Call.InstallMmWaveVehicularNetDevices 2,
           Call.InstallInternet 1, Call.InstallInternet 2,
           Call.Assign "10.1.1.0" 1, Call.Assign "10.1.2.0" 2 ]
      ++ pairing2 orthogonalResources ++ defaultRoutes 1 ++ defaultRoutes 2)
    (twoPlatTraffic GetId) (by cases orthogonalResources <;> rfl) rfl

theorem OnOff_main_pairCalls (startTime stopTime : Nat) (intraGroupDistance speed : ℚ) :
    pairCalls (callsOf (OnOff.main startTime stopTime intraGroupDistance speed)) = [devs 1] ∧
    installedDevices (callsOf (OnOff.main startTime stopTime intraGroupDistance speed))
      = devs 1 :=
  ⟨rfl, rfl⟩

theorem New_main_pairCalls (GetId : NodeRef → Nat) (intraGroupDistance speed : ℚ) :
    pairCalls (callsOf (New.main GetId intraGroupDistance speed)) = [devs 1] ∧
    installedDevices (callsOf (New.main GetId intraGroupDistance speed)) = devs 1 :=
  ⟨rfl, rfl⟩

theorem TwoPlatSem_main_installedDevices (GetId : NodeRef → Nat) (orthogonalResources : Bool)
    (intraGroupDistance interGroupDistance speed : ℚ) :
    installedDevices (callsOf
      (TwoPlatSem.main GetId orthogonalResources intraGroupDistance interGroupDistance speed))
      = devs 1 ++ devs 2 := by
  cases orthogonalResources <;> rfl

theorem TwoPlatSem_main_pairCalls (GetId : NodeRef → Nat) (orthogonalResources : Bool)
    (intraGroupDistance interGroupDistance speed : ℚ) :
    pairCalls (callsOf
      (TwoPlatSem.main GetId orthogonalResources intraGroupDistance interGroupDistance speed))
      = if orthogonalResources then [devs 1 ++ devs 2] else [devs 1, devs 2] := by
  cases orthogonalResources <;> rfl

/-- C7: in all three scenarios and for either value of `orthogonalResources`, every device
created by `InstallMmWaveVehicularNetDevices` is in the argument of exactly one `PairDevices`
call, and every `PairDevices` call is issued before every call that installs or starts a
traffic application. -/
theorem pairing_once_before_traffic (GetId : NodeRef → Nat) (orthogonalResources : Bool)
    (startTime stopTime : Nat) (intraGroupDistance interGroupDistance speed : ℚ) :
    ((∀ dev ∈ installedDevices
          (callsOf (OnOff.main startTime stopTime intraGroupDistance speed)),
        pairCount (callsOf (OnOff.main startTime stopTime intraGroupDistance speed)) dev = 1) ∧
      PairingPrecedesTraffic
        (callsOf (OnOff.main startTime stopTime intraGroupDistance speed))) ∧
    ((∀ dev ∈ installedDevices (callsOf (New.main GetId intraGroupDistance speed)),
        pairCount (callsOf (New.main GetId intraGroupDistance speed)) dev = 1) ∧
      PairingPrecedesTraffic (callsOf (New.main GetId intraGroupDistance speed))) ∧
    ((∀ dev ∈ installedDevices (callsOf (TwoPlatSem.main GetId orthogonalResources
          intraGroupDistance interGroupDistance speed)),
        pairCount (callsOf (TwoPlatSem.main GetId orthogonalResources
          intraGroupDistance interGroupDistance speed)) dev = 1) ∧
      PairingPrecedesTraffic (callsOf (TwoPlatSem.main GetId orthogonalResources
        intraGroupDistance interGroupDistance speed))) := by
  refine ⟨⟨?_, OnOff_main_precedes _ _ _ _⟩, ⟨?_, New_main_precedes _ _ _⟩,
    ⟨?_, TwoPlatSem_main_precedes _ _ _ _ _⟩⟩
  · rw [(OnOff_main_pairCalls _ _ _ _).2]
    unfold pairCount
    rw [(OnOff_main_pairCalls _ _ _ _).1]
    decide
  · rw [(New_main_pairCalls _ _ _).2]
    unfold pairCount
    rw [(New_main_pairCalls _ _ _).1]
    decide
  · rw [TwoPlatSem_main_installedDevices]
    unfold pairCount
    rw [TwoPlatSem_main_pairCalls]
    cases orthogonalResources <;> decide

/-- Witness for C7: in the ON/OFF scenario with the default parameters the device of node 0
is paired once, and the `PairDevices` call (index 13) precedes the first `OnOffHelper::Install`
(index 17). -/
theorem pairing_once_before_traffic_witness :
    pairCount (callsOf (OnOff.main 100 2000 5 20)) ⟨1, 0⟩ = 1 ∧ 13 < 17 :=
  ⟨(pairing_once_before_traffic (fun n => n.index) false 100 2000 5 10 20).1.1 ⟨1, 0⟩
      (by decide),
   (pairing_once_before_traffic (fun n => n.index) false 100 2000 5 10 20).1.2 13 17
      (by decide) (by decide) rfl rfl⟩

/-! ## Topology -/

theorem OnOff_main_positions (startTime stopTime : Nat) (d speed : ℚ) :
    positionOf (callsOf (OnOff.main startTime stopTime d speed)) ⟨1, 0⟩ = some ⟨0, 0, 0⟩ ∧
    positionOf (callsOf (OnOff.main startTime stopTime d speed)) ⟨1, 1⟩ = some ⟨d, 0, 0⟩ ∧
    positionOf (callsOf (OnOff.main startTime stopTime d speed)) ⟨1, 2⟩ = some ⟨2 * d, 0, 0⟩ ∧
    positionOf (callsOf (OnOff.main startTime stopTime d speed)) ⟨1, 3⟩ = some ⟨3 * d, 0, 0⟩ :=
  ⟨rfl, rfl, rfl, rfl⟩

theorem New_main_positions (GetId : NodeRef → Nat) (d speed : ℚ) :
    positionOf (callsOf (New.main GetId d speed)) ⟨1, 0⟩ = some ⟨0, 0, 0⟩ ∧
    positionOf (callsOf (New.main GetId d speed)) ⟨1, 1⟩ = some ⟨d, 0, 0⟩ ∧
    positionOf (callsOf (New.main GetId d speed)) ⟨1, 2⟩ = some ⟨2 * d, 0, 0⟩ ∧
    positionOf (callsOf (New.main GetId d speed)) ⟨1, 3⟩ = some ⟨3 * d, 0, 0⟩ :=
  ⟨rfl, rfl, rfl, rfl⟩

theorem TwoPlatSem_main_positions (GetId : NodeRef → Nat) (orth : Bool) (d D speed : ℚ) :
    (positionOf (callsOf (TwoPlatSem.main GetId orth d D speed)) ⟨1, 0⟩ = some ⟨0, 0, 0⟩ ∧
     positionOf (callsOf (TwoPlatSem.main GetId orth d D speed)) ⟨1, 1⟩ = some ⟨d, 0, 0⟩ ∧
     positionOf (callsOf (TwoPlatSem.main GetId orth d D speed)) ⟨1, 2⟩ = some ⟨2 * d, 0, 0⟩ ∧
     positionOf (callsOf (TwoPlatSem.main GetId orth d D speed)) ⟨1, 3⟩ = some ⟨3 * d, 0, 0⟩) ∧
    (positionOf (callsOf (TwoPlatSem.main GetId orth d D speed)) ⟨2, 0⟩ = some ⟨0, D, 0⟩ ∧
     positionOf (callsOf (TwoPlatSem.main GetId orth d D speed)) ⟨2, 1⟩ = some ⟨d, D, 0⟩ ∧
     positionOf (callsOf (TwoPlatSem.main GetId orth d D speed)) ⟨2, 2⟩ = some ⟨2 * d, D, 0⟩ ∧
     positionOf (callsOf (TwoPlatSem.main GetId orth d D speed)) ⟨2, 3⟩ = some ⟨3 * d, D, 0⟩) := by
  cases orth <;> exact ⟨⟨rfl, rfl, rfl, rfl⟩, ⟨rfl, rfl, rfl, rfl⟩⟩

theorem OnOff_main_velocities (startTime stopTime : Nat) (d speed : ℚ) :
    velocityOf (callsOf (OnOff.main startTime stopTime d speed)) ⟨1, 0⟩ = some ⟨speed, 0, 0⟩ ∧
    velocityOf (callsOf (OnOff.main startTime stopTime d speed)) ⟨1, 1⟩ = some ⟨speed, 0, 0⟩ ∧
    velocityOf (callsOf (OnOff.main startTime stopTime d speed)) ⟨1, 2⟩ = some ⟨speed, 0, 0⟩ ∧
    velocityOf (callsOf (OnOff.main startTime stopTime d speed)) ⟨1, 3⟩ = some ⟨speed, 0, 0⟩ :=
  ⟨rfl, rfl, rfl, rfl⟩

theorem New_main_velocities (GetId : NodeRef → Nat) (d speed : ℚ) :
    velocityOf (callsOf (New.main GetId d speed)) ⟨1, 0⟩ = some ⟨speed, 0, 0⟩ ∧
    velocityOf (callsOf (New.main GetId d speed)) ⟨1, 1⟩ = some ⟨speed, 0, 0⟩ ∧
    velocityOf (callsOf (New.main GetId d speed)) ⟨1, 2⟩ = some ⟨speed, 0, 0⟩ ∧
    velocityOf (callsOf (New.main GetId d speed)) ⟨1, 3⟩ = some ⟨speed, 0, 0⟩ :=
  ⟨rfl, rfl, rfl, rfl⟩

theorem TwoPlatSem_main_velocities (GetId : NodeRef → Nat) (orth : Bool) (d D speed : ℚ) :
    (velocityOf (callsOf (TwoPlatSem.main GetId orth d D speed)) ⟨1, 0⟩ = some ⟨speed, 0, 0⟩ ∧
     velocityOf (callsOf (TwoPlatSem.main GetId orth d D speed)) ⟨1, 1⟩ = some ⟨speed, 0, 0⟩ ∧
     velocityOf (callsOf (TwoPlatSem.main GetId orth d D speed)) ⟨1, 2⟩ = some ⟨speed, 0, 0⟩ ∧
     velocityOf (callsOf (TwoPlatSem.main GetId orth d D speed)) ⟨1, 3⟩ = some ⟨speed, 0, 0⟩) ∧
    (velocityOf (callsOf (TwoPlatSem.main GetId orth d D speed)) ⟨2, 0⟩ = some ⟨speed, 0, 0⟩ ∧
     velocityOf (callsOf (TwoPlatSem.main GetId orth d D speed)) ⟨2, 1⟩ = some ⟨speed, 0, 0⟩ ∧
     velocityOf (callsOf (TwoPlatSem.main GetId orth d D speed)) ⟨2, 2⟩ = some ⟨speed, 0, 0⟩ ∧
     velocityOf (callsOf (TwoPlatSem.main GetId orth d D speed)) ⟨2, 3⟩ = some ⟨speed, 0, 0⟩) := by
  cases orth <;> exact ⟨⟨rfl, rfl, rfl, rfl⟩, ⟨rfl, rfl, rfl, rfl⟩⟩

/-- C8: for every `intraGroupDistance` d, `interGroupDistance` D and `speed`, node k
(k = 0..3) of group g (g = 0 for `group1`, g = 1 for `group2`) is placed at `(k*d, g*D, 0)`
and moves with velocity `(speed, 0, 0)`, in the one-group scenarios (g = 0) and in the
two-group scenario: the nodes of a group lie on a line along the x axis, which is the axis of
the velocity, and the two groups differ only by the offset D along the y axis. -/
theorem node_positions (GetId : NodeRef → Nat) (orthogonalResources : Bool)
    (startTime stopTime : Nat) (d D speed : ℚ) (k : Fin 4) :
    (positionOf (callsOf (OnOff.main startTime stopTime d speed)) ⟨1, k⟩
        = some ⟨k * d, 0 * D, 0⟩ ∧
      velocityOf (callsOf (OnOff.main startTime stopTime d speed)) ⟨1, k⟩
        = some ⟨speed, 0, 0⟩) ∧
    (positionOf (callsOf (New.main GetId d speed)) ⟨1, k⟩ = some ⟨k * d, 0 * D, 0⟩ ∧
      velocityOf (callsOf (New.main GetId d speed)) ⟨1, k⟩ = some ⟨speed, 0, 0⟩) ∧
    ∀ g : Fin 2,
      positionOf (callsOf (TwoPlatSem.main GetId orthogonalResources d D speed)) ⟨g + 1, k⟩
        = some ⟨k * d, g * D, 0⟩ ∧
      velocityOf (callsOf (TwoPlatSem.main GetId orthogonalResources d D speed)) ⟨g + 1, k⟩
        = some ⟨speed, 0, 0⟩ := by
  obtain ⟨a0, a1, a2, a3⟩ := OnOff_main_positions startTime stopTime d speed
  obtain ⟨b0, b1, b2, b3⟩ := New_main_positions GetId d speed
  obtain ⟨⟨c0, c1, c2, c3⟩, ⟨e0, e1, e2, e3⟩⟩ :=
    TwoPlatSem_main_positions GetId orthogonalResources d D speed
  obtain ⟨va0, va1, va2, va3⟩ := OnOff_main_velocities startTime stopTime d speed
  obtain ⟨vb0, vb1, vb2, vb3⟩ := New_main_velocities GetId d speed
  obtain ⟨⟨vc0, vc1, vc2, vc3⟩, ⟨ve0, ve1, ve2, ve3⟩⟩ :=
    TwoPlatSem_main_velocities GetId orthogonalResources d D speed
  refine ⟨?_, ?_, ?_⟩
  · fin_cases k <;> simp [a0, a1, a2, a3, va0, va1, va2, va3]
  · fin_cases k <;> simp [b0, b1, b2, b3, vb0, vb1, vb2, vb3]
  · intro g
    fin_cases k <;> fin_cases g <;>
      simp [c0, c1, c2, c3, e0, e1, e2, e3, vc0, vc1, vc2, vc3, ve0, ve1, ve2, ve3]

/-- C9 as stated fails: with `--intraGroupDistance=0`, which the ON/OFF scenario accepts, the
spacing between nodes 0 and 1 of the group is the zero vector, which is not positive. -/
theorem spacing_positive_counterexample :
    spacing (callsOf (OnOff.main 100 2000 0 20)) 1 0 = some ⟨0, 0, 0⟩ ∧
    ¬ (0 : ℚ) < (⟨0, 0, 0⟩ : Vector).x := by
  constructor
  · have h := OnOff_main_positions 100 2000 0 20
    simp [spacing, h.1, h.2.1, Vector.sub]
  · simp

/-- C9 (amended): in every group built by any of the three scenarios, the spacing between
consecutive nodes (position of node k+1 minus position of node k, for k = 0..2) is the same for
all k: it is the vector `(intraGroupDistance, 0, 0)`, whose x coordinate is positive exactly
when `intraGroupDistance` is. -/
theorem spacing_constant (GetId : NodeRef → Nat) (orthogonalResources : Bool)
    (startTime stopTime : Nat) (d D speed : ℚ) (k : Fin 3) :
    spacing (callsOf (OnOff.main startTime stopTime d speed)) 1 k = some ⟨d, 0, 0⟩ ∧
    spacing (callsOf (New.main GetId d speed)) 1 k = some ⟨d, 0, 0⟩ ∧
    (∀ g : Fin 2,
      spacing (callsOf (TwoPlatSem.main GetId orthogonalResources d D speed)) (g + 1) k
        = some ⟨d, 0, 0⟩) ∧
    ((0 : ℚ) < (⟨d, 0, 0⟩ : Vector).x ↔ 0 < d) := by
  obtain ⟨a0, a1, a2, a3⟩ := OnOff_main_positions startTime stopTime d speed
  obtain ⟨b0, b1, b2, b3⟩ := New_main_positions GetId d speed
  obtain ⟨⟨c0, c1, c2, c3⟩, ⟨e0, e1, e2, e3⟩⟩ :=
    TwoPlatSem_main_positions GetId orthogonalResources d D speed
  refine ⟨?_, ?_, ?_, Iff.rfl⟩
  · fin_cases k <;> simp [spacing, a0, a1, a2, a3, Vector.sub] <;> ring
  · fin_cases k <;> simp [spacing, b0, b1, b2, b3, Vector.sub] <;> ring
  · intro g
    fin_cases k <;> fin_cases g <;>
      simp [spacing, c0, c1, c2, c3, e0, e1, e2, e3, Vector.sub] <;> ring

/-- C10 as stated fails: with `intraGroupDistance = -5`, a non-positive spacing, topology
construction and the whole set-up of the two-group scenario succeed, so failure is not
equivalent to a non-positive spacing or node count. -/
theorem topology_failure_counterexample :
    failed (buildTopology2 (-5) 10 20) = false ∧
    failed (TwoPlatSem.main creationOrderId false (-5) 10 20) = false ∧
    ¬ (failed (buildTopology2 (-5) 10 20) = true
        ↔ ((-5 : ℚ) ≤ 0 ∨ (10 : ℚ) ≤ 0 ∨ (4 : Int) ≤ 0)) := by
  refine ⟨rfl, rfl, ?_⟩
  intro h
  have h1 : failed (buildTopology2 (-5) 10 20) = true := h.mpr (Or.inl (by norm_num))
  exact Bool.noConfusion h1

/-- C10 (amended): topology construction never fails: for every value of
`intraGroupDistance`, `interGroupDistance` and `speed`, positive or not, it succeeds, as does
the rest of the set-up in `main`; the node count is not an input but the constant 4 of
`groupN.Create (4)`. -/
theorem topology_never_fails (GetId : NodeRef → Nat) (orthogonalResources : Bool)
    (startTime stopTime : Nat) (d D speed : ℚ) :
    failed (buildTopology1 d speed) = false ∧
    failed (buildTopology2 d D speed) = false ∧
    failed (OnOff.main startTime stopTime d speed) = false ∧
    failed (New.main GetId d speed) = false ∧
    failed (TwoPlatSem.main GetId orthogonalResources d D speed) = false ∧
    Call.Create 1 4 ∈ callsOf (buildTopology1 d speed) ∧
    Call.Create 1 4 ∈ callsOf (buildTopology2 d D speed) ∧
    Call.Create 2 4 ∈ callsOf (buildTopology2 d D speed) := by
  refine ⟨rfl, rfl, rfl, rfl, rfl, ?_, ?_, ?_⟩ <;>
    simp [buildTopology1, buildTopology2, callsOf]

/-! ## Velocities -/

/-- C11: in every scenario, every node of every group is given the velocity vector
`(speed, 0, 0)`: the `SetVelocity` calls are exactly one per node, each with that argument, so
the velocity of node k of group g is `(speed, 0, 0)` and any two nodes have the same velocity. -/
theorem all_velocities_equal (GetId : NodeRef → Nat) (orthogonalResources : Bool)
    (startTime stopTime : Nat) (d D speed : ℚ) (k k2 : Fin 4) (g g2 : Fin 2) :
    velocityCalls (callsOf (OnOff.main startTime stopTime d speed))
      = (groupNodes 1).map (fun n => (n, (⟨speed, 0, 0⟩ : Vector))) ∧
    velocityCalls (callsOf (New.main GetId d speed))
      = (groupNodes 1).map (fun n => (n, (⟨speed, 0, 0⟩ : Vector))) ∧
    velocityCalls (callsOf (TwoPlatSem.main GetId orthogonalResources d D speed))
      = (groupNodes 1 ++ groupNodes 2).map (fun n => (n, (⟨speed, 0, 0⟩ : Vector))) ∧
    velocityOf (callsOf (OnOff.main startTime stopTime d speed)) ⟨1, k⟩
      = some ⟨speed, 0, 0⟩ ∧
    velocityOf (callsOf (New.main GetId d speed)) ⟨1, k⟩ = some ⟨speed, 0, 0⟩ ∧
    velocityOf (callsOf (TwoPlatSem.main GetId orthogonalResources d D speed)) ⟨g + 1, k⟩
      = some ⟨speed, 0, 0⟩ ∧
    velocityOf (callsOf (TwoPlatSem.main GetId orthogonalResources d D speed)) ⟨g + 1, k⟩
      = velocityOf (callsOf (TwoPlatSem.main GetId orthogonalResources d D speed))
          ⟨g2 + 1, k2⟩ := by
  obtain ⟨va0, va1, va2, va3⟩ := OnOff_main_velocities startTime stopTime d speed
  obtain ⟨vb0, vb1, vb2, vb3⟩ := New_main_velocities GetId d speed
  obtain ⟨⟨vc0, vc1, vc2, vc3⟩, ⟨ve0, ve1, ve2, ve3⟩⟩ :=
    TwoPlatSem_main_velocities GetId orthogonalResources d D speed
  have h2 : ∀ (k : Fin 4) (g : Fin 2),
      velocityOf (callsOf (TwoPlatSem.main GetId orthogonalResources d D speed)) ⟨g + 1, k⟩
        = some ⟨speed, 0, 0⟩ := by
    intro k g
    fin_cases k <;> fin_cases g <;> simp [vc0, vc1, vc2, vc3, ve0, ve1, ve2, ve3]
  refine ⟨rfl, rfl, ?_, ?_, ?_, h2 k g, ?_⟩
  · cases orthogonalResources <;> rfl
  · fin_cases k <;> simp [va0, va1, va2, va3]
  · fin_cases k <;> simp [vb0, vb1, vb2, vb3]
  · rw [h2 k g, h2 k2 g2]

/-! ## Counter updates -/

/-- C15: each `Tx` invocation adds one to the transmitted counter modulo `2 ^ 32` and leaves
the received counter unchanged; each `Rx` invocation, whatever the header timestamp (sentinel
or computed-delay branch), adds one to the received counter modulo `2 ^ 32` and leaves the
transmitted counter unchanged; so after a run the counters hold the number of `Tx` and of `Rx`
invocations modulo `2 ^ 32`. -/
theorem counters_step (s : State) (device now : Int) (p : Packet) (es : List Event) :
    (Tx s device now p).g_txPacketsGroup1 = (s.g_txPacketsGroup1 + 1) % 2 ^ 32 ∧
    (Tx s device now p).g_rxPacketsGroup1 = s.g_rxPacketsGroup1 ∧
    (Rx s now p).g_rxPacketsGroup1 = (s.g_rxPacketsGroup1 + 1) % 2 ^ 32 ∧
    (Rx s now p).g_txPacketsGroup1 = s.g_txPacketsGroup1 ∧
    (run es).g_txPacketsGroup1 = countTx es % 2 ^ 32 ∧
    (run es).g_rxPacketsGroup1 = countRx es % 2 ^ 32 :=
  ⟨rfl, rfl, rfl, rfl, run_tx es, run_rx es⟩

/-! ## Unsigned delay and simulation horizon -/

/-- The decimal text of an unsigned value holds no minus sign. -/
theorem natText_no_minus (n : Nat) : '-' ∉ (toString n).data := by
  intro hmem
  have hmem2 : '-' ∈ Nat.toDigits 10 n := hmem
  exact toDigitsCore_ne_minus _ _ [] (by simp) '-' hmem2 rfl

/-- C17: in `Rx`, for every receive time `now` and every non-zero header timestamp `ts`,
later than `now` or not, the delay column is the `uint64_t` holding `(now - ts) mod 2 ^ 64`,
a non-negative value below `2 ^ 64`; it is not the sentinel, its text is not `-1` and holds no
minus sign. -/
theorem Rx_delay_unsigned (now : Int) (packet : Packet) (fmtDouble : DoubleVal → String)
    (hts : packet.ts ≠ 0) :
    delayField (RxLine now packet) = some (Token.u64 (delayNs now packet.ts)) ∧
    ((delayNs now packet.ts : Nat) : Int) = (now - packet.ts) % 2 ^ 64 ∧
    delayNs now packet.ts < 2 ^ 64 ∧
    delayField (RxLine now packet) ≠ some (Token.int (-1)) ∧
    (Token.u64 (delayNs now packet.ts)).text fmtDouble ≠ "-1" ∧
    '-' ∉ ((Token.u64 (delayNs now packet.ts)).text fmtDouble).data := by
  have hnn : 0 ≤ (now - packet.ts) % 2 ^ 64 := Int.emod_nonneg _ (by norm_num)
  have hlt : (now - packet.ts) % 2 ^ 64 < 2 ^ 64 := Int.emod_lt_of_pos _ (by norm_num)
  have hval : ((delayNs now packet.ts : Nat) : Int) = (now - packet.ts) % 2 ^ 64 := by
    unfold delayNs
    exact Int.toNat_of_nonneg hnn
  refine ⟨?_, hval, ?_, ?_, ?_, ?_⟩
  · simp [RxLine, hts, delayField]
  · have : ((delayNs now packet.ts : Nat) : Int) < ((2 ^ 64 : Nat) : Int) := by
      rw [hval]; exact_mod_cast hlt
    exact_mod_cast this
  · simp [RxLine, hts, delayField]
  · simpa [Token.text] using natText_ne_minus_one (delayNs now packet.ts)
  · simpa [Token.text] using natText_no_minus (delayNs now packet.ts)

/-- Witness for C17: a packet stamped 1 ns and received at time 0. -/
theorem Rx_delay_unsigned_witness :
    delayField (RxLine 0 ⟨512, 1⟩) = some (Token.u64 (delayNs 0 1)) ∧
    ((delayNs 0 1 : Nat) : Int) = (0 - 1) % 2 ^ 64 ∧
    delayNs 0 1 < 2 ^ 64 ∧
    delayField (RxLine 0 ⟨512, 1⟩) ≠ some (Token.int (-1)) ∧
    (Token.u64 (delayNs 0 1)).text (fun _ => "") ≠ "-1" ∧
    '-' ∉ ((Token.u64 (delayNs 0 1)).text (fun _ => "")).data :=
  Rx_delay_unsigned 0 ⟨512, 1⟩ (fun _ => "") (by decide)

/-- C18: in the ON/OFF scenario, with `stopTime` a `uint32_t` number of milliseconds, the
time passed to `Simulator::Stop` is `MilliSeconds ((stopTime + 1000) mod 2 ^ 32)`, the
applications are stopped at `MilliSeconds (stopTime)`, and the former is strictly later than the
latter if and only if `stopTime < 2 ^ 32 - 1000`. -/
theorem simulator_stop_later_iff (startTime stopTime : Nat) (d speed : ℚ)
    (hstop : stopTime < 2 ^ 32) :
    simulatorStopOf (callsOf (OnOff.main startTime stopTime d speed))
      = some (MilliSeconds ((stopTime + 1000) % 2 ^ 32)) ∧
    appStopOf (callsOf (OnOff.main startTime stopTime d speed)) AppContainer.onOffApps
      = some (MilliSeconds stopTime) ∧
    (MilliSeconds stopTime < MilliSeconds ((stopTime + 1000) % 2 ^ 32)
      ↔ stopTime < 2 ^ 32 - 1000) := by
  refine ⟨rfl, rfl, ?_⟩
  unfold MilliSeconds
  constructor
  · intro h
    omega
  · intro h
    omega

/-- Witness for C18: the default `stopTime` of 2000 ms. -/
theorem simulator_stop_later_iff_witness :
    simulatorStopOf (callsOf (OnOff.main 100 2000 5 20))
      = some (MilliSeconds ((2000 + 1000) % 2 ^ 32)) ∧
    appStopOf (callsOf (OnOff.main 100 2000 5 20)) AppContainer.onOffApps
      = some (MilliSeconds 2000) ∧
    (MilliSeconds 2000 < MilliSeconds ((2000 + 1000) % 2 ^ 32) ↔ 2000 < 2 ^ 32 - 1000) :=
  simulator_stop_later_iff 100 2000 5 20 (by decide)

/-! ## Layout of the log lines -/

theorem fields_TxLine (device now : Int) (p : Packet) :
    fields (TxLine device now p)
      = [literal "Tx", [Atom.value (Token.int device)],
          [Atom.value (Token.dbl (GetSeconds now))], [Atom.value (Token.u32 p.size)]] := by
  rfl

theorem fields_RxLine (now : Int) (packet : Packet) :
    fields (RxLine now packet)
      = [literal "Rx", [Atom.value (Token.dbl (GetSeconds now))],
          [Atom.value (Token.u32 packet.size)],
          [Atom.value (if packet.ts ≠ 0 then Token.u64 (delayNs now packet.ts)
            else Token.int (-1))]] := by
  by_cases h : packet.ts = 0
  · simp only [RxLine, h, ne_eq, not_true_eq_false, if_false]
    rfl
  · simp only [RxLine, h, ne_eq, not_false_eq_true, if_true]
    rfl

/-- C13 as stated fails for `Tx`: the line written for device 7 has four fields, but the
second one is the device number and not the timestamp, so the line is not of the form event
kind, timestamp, size, delay-or-sentinel. -/
theorem Tx_line_layout_counterexample :
    (fields (TxLine 7 0 ⟨512, 0⟩)).length = 4 ∧
    (fields (TxLine 7 0 ⟨512, 0⟩))[1]? = some [Atom.value (Token.int 7)] ∧
    (fields (TxLine 7 0 ⟨512, 0⟩))[3]? = some [Atom.value (Token.u32 512)] ∧
    ¬ ∃ delay : List Atom,
        fields (TxLine 7 0 ⟨512, 0⟩)
          = [literal "Tx", [Atom.value (Token.dbl (GetSeconds 0))],
              [Atom.value (Token.u32 512)], delay] := by
  rw [fields_TxLine]
  refine ⟨rfl, rfl, rfl, ?_⟩
  rintro ⟨delay, h⟩
  simp at h

/-- C13 (amended): every line the `Tx` and `Rx` callbacks write consists of exactly four
tab-separated fields; for `Rx` they are, in order, event kind, timestamp, size and
delay-or-sentinel; for `Tx` they are event kind, device number, timestamp and size. -/
theorem log_line_layout (s : State) (device now : Int) (p : Packet) :
    (Tx s device now p).stream = s.stream ++ TxLine device now p ∧
    (Rx s now p).stream = s.stream ++ RxLine now p ∧
    fields (TxLine device now p)
      = [literal "Tx", [Atom.value (Token.int device)],
          [Atom.value (Token.dbl (GetSeconds now))], [Atom.value (Token.u32 p.size)]] ∧
    (∃ delay : Token,
      fields (RxLine now p)
        = [literal "Rx", [Atom.value (Token.dbl (GetSeconds now))],
            [Atom.value (Token.u32 p.size)], [Atom.value delay]] ∧
      (delay = Token.int (-1) ∨ delay = Token.u64 (delayNs now p.ts))) := by
  refine ⟨rfl, rfl, fields_TxLine device now p, ?_⟩
  refine ⟨_, fields_RxLine now p, ?_⟩
  by_cases h : p.ts = 0
  · left; simp [h]
  · right; simp [h]

/-! ## Flows and statistics calculators -/

theorem twoPlatTraffic_eq (GetId : NodeRef → Nat) :
    twoPlatTraffic GetId
      = (twoPlatBuilder GetId 6).calls ++
        [ Call.StartWithJitter AppContainer.clientApps 100000000,
          Call.Stop AppContainer.clientApps 7000000000,
          Call.SimulatorStop 8000000000,
          Call.SimulatorRun,
          Call.SimulatorDestroy ] := rfl

theorem twoPlat_burstySources (GetId : NodeRef → Nat) (orth : Bool) (d D speed : ℚ) :
    burstySources (callsOf (TwoPlatSem.main GetId orth d D speed))
      = [ (⟨1, 0⟩, ⟨1, 3⟩, 50000), (⟨1, 1⟩, ⟨1, 3⟩, 50001), (⟨1, 2⟩, ⟨1, 3⟩, 50002),
          (⟨2, 0⟩, ⟨2, 3⟩, 50000), (⟨2, 1⟩, ⟨2, 3⟩, 50001), (⟨2, 2⟩, ⟨2, 3⟩, 50002) ] := by
  cases orth <;> rfl

theorem twoPlat_burstSinks (GetId : NodeRef → Nat) (orth : Bool) (d D speed : ℚ) :
    burstSinks (callsOf (TwoPlatSem.main GetId orth d D speed))
      = [ (⟨1, 3⟩, 50000), (⟨1, 3⟩, 50001), (⟨1, 3⟩, 50002),
          (⟨2, 3⟩, 50000), (⟨2, 3⟩, 50001), (⟨2, 3⟩, 50002) ] := by
  cases orth <;> rfl

theorem twoPlat_txStats (GetId : NodeRef → Nat) (orth : Bool) (d D speed : ℚ) (i : Fin 6) :
    txStats (callsOf (TwoPlatSem.main GetId orth d D speed)) i = [i.val] := by
  cases orth <;> fin_cases i <;> rfl

theorem twoPlat_rxStats (GetId : NodeRef → Nat) (orth : Bool) (d D speed : ℚ) (i : Fin 6) :
    rxStats (callsOf (TwoPlatSem.main GetId orth d D speed)) i = [i.val] := by
  cases orth <;> fin_cases i <;> rfl

theorem twoPlat_sinkOfSource (GetId : NodeRef → Nat) (orth : Bool) (d D speed : ℚ)
    (i : Fin 6) :
    sinkOfSource (callsOf (TwoPlatSem.main GetId orth d D speed)) i = some i.val := by
  unfold sinkOfSource
  rw [twoPlat_burstySources, twoPlat_burstSinks]
  fin_cases i <;> decide

theorem new_burstySources (GetId : NodeRef → Nat) (d speed : ℚ) :
    burstySources (callsOf (New.main GetId d speed))
      = [(⟨1, 0⟩, ⟨1, 3⟩, 50000), (⟨1, 1⟩, ⟨1, 3⟩, 50001), (⟨1, 2⟩, ⟨1, 3⟩, 50002)] := rfl

theorem new_burstSinks (GetId : NodeRef → Nat) (d speed : ℚ) :
    burstSinks (callsOf (New.main GetId d speed))
      = [(⟨1, 3⟩, 50000), (⟨1, 3⟩, 50001), (⟨1, 3⟩, 50002)] := rfl

theorem new_txStats (GetId : NodeRef → Nat) (d speed : ℚ) (i : Fin 3) :
    txStats (callsOf (New.main GetId d speed)) i = [i.val] := by
  fin_cases i <;> rfl

theorem new_rxStats (GetId : NodeRef → Nat) (d speed : ℚ) (i : Fin 3) :
    rxStats (callsOf (New.main GetId d speed)) i = [i.val] := by
  fin_cases i <;> rfl

theorem new_sinkOfSource (GetId : NodeRef → Nat) (d speed : ℚ) (i : Fin 3) :
    sinkOfSource (callsOf (New.main GetId d speed)) i = some i.val := by
  unfold sinkOfSource
  rw [new_burstySources, new_burstSinks]
  fin_cases i <;> decide

/-- C12: in the trace-driven scenarios one `BurstyAppStatsCalculator` is created per flow
(three, respectively six); for every flow, the single calculator bound to the `BurstTx` hook of
its source is the single calculator bound to the `BurstRx` hook of the sink that source sends
to; and a calculator bound to a hook of one flow is bound to no hook of another flow. -/
theorem one_calculator_per_flow (GetId : NodeRef → Nat) (orthogonalResources : Bool)
    (d D speed : ℚ) :
    ((burstySources (callsOf (New.main GetId d speed))).length = 3 ∧
      createdStats (callsOf (New.main GetId d speed)) = [0, 1, 2] ∧
      (∀ i : Fin 3, ∃ sink stats : Nat,
        sinkOfSource (callsOf (New.main GetId d speed)) i = some sink ∧
        txStats (callsOf (New.main GetId d speed)) i = [stats] ∧
        rxStats (callsOf (New.main GetId d speed)) sink = [stats]) ∧
      (∀ (i j : Fin 3) (stats : Nat),
        stats ∈ txStats (callsOf (New.main GetId d speed)) i
          ++ rxStats (callsOf (New.main GetId d speed)) i →
        stats ∈ txStats (callsOf (New.main GetId d speed)) j
          ++ rxStats (callsOf (New.main GetId d speed)) j →
        i = j)) ∧
    ((burstySources
        (callsOf (TwoPlatSem.main GetId orthogonalResources d D speed))).length = 6 ∧
      createdStats (callsOf (TwoPlatSem.main GetId orthogonalResources d D speed))
        = [0, 1, 2, 3, 4, 5] ∧
      (∀ i : Fin 6, ∃ sink stats : Nat,
        sinkOfSource (callsOf (TwoPlatSem.main GetId orthogonalResources d D speed)) i
          = some sink ∧
        txStats (callsOf (TwoPlatSem.main GetId orthogonalResources d D speed)) i = [stats] ∧
        rxStats (callsOf (TwoPlatSem.main GetId orthogonalResources d D speed)) sink
          = [stats]) ∧
      (∀ (i j : Fin 6) (stats : Nat),
        stats ∈ txStats (callsOf (TwoPlatSem.main GetId orthogonalResources d D speed)) i
          ++ rxStats (callsOf (TwoPlatSem.main GetId orthogonalResources d D speed)) i →
        stats ∈ txStats (callsOf (TwoPlatSem.main GetId orthogonalResources d D speed)) j
          ++ rxStats (callsOf (TwoPlatSem.main GetId orthogonalResources d D speed)) j →
        i = j)) := by
  refine ⟨⟨?_, rfl, ?_, ?_⟩, ⟨?_, ?_, ?_, ?_⟩⟩
  · rw [new_burstySources]; rfl
  · intro i
    exact ⟨i.val, i.val, new_sinkOfSource GetId d speed i, new_txStats GetId d speed i,
      new_rxStats GetId d speed i⟩
  · intro i j stats hi hj
    rw [new_txStats, new_rxStats] at hi hj
    simp only [List.mem_append, List.mem_singleton, or_self] at hi hj
    exact Fin.ext (hi.symm.trans hj)
  · rw [twoPlat_burstySources]; rfl
  · cases orthogonalResources <;> rfl
  · intro i
    exact ⟨i.val, i.val, twoPlat_sinkOfSource GetId orthogonalResources d D speed i,
      twoPlat_txStats GetId orthogonalResources d D speed i,
      twoPlat_rxStats GetId orthogonalResources d D speed i⟩
  · intro i j stats hi hj
    rw [twoPlat_txStats, twoPlat_rxStats] at hi hj
    simp only [List.mem_append, List.mem_singleton, or_self] at hi hj
    exact Fin.ext (hi.symm.trans hj)

/-- Witness for C12: in the two-group scenario calculator 4 is bound to the hooks of flow 4,
so a flow whose hooks hold calculator 4 is flow 4. -/
theorem one_calculator_per_flow_witness :
    (4 : Fin 6) = 4 ∧
    txStats (callsOf (TwoPlatSem.main creationOrderId false 20 10 20)) 4 = [4] :=
  ⟨(one_calculator_per_flow creationOrderId false 20 10 20).2.2.2.2 4 4 4
      (by rw [twoPlat_txStats, twoPlat_rxStats]; decide)
      (by rw [twoPlat_txStats, twoPlat_rxStats]; decide),
    twoPlat_txStats creationOrderId false 20 10 20 4⟩

/-- C19: in the two-group scenario every row of the final table reads `clientApps.Get (i)` and
`serverApps.Get (i)` with the same i in 0..5, and the source and the sink at index i belong to
one flow: both are installed by loop iteration i (which starts with i applications in each
container), the source sends to the node of its own group on which the sink is installed and
to the port the sink listens on, and their hooks are bound to the same statistics calculator. -/
theorem table_row_same_flow (GetId : NodeRef → Nat) (orthogonalResources : Bool)
    (d D speed : ℚ) (i : Fin 6) :
    TwoPlatSem.finalTable.map (fun r => (r.clientIndex, r.serverIndex))
      = [(0, 0), (1, 1), (2, 2), (3, 3), (4, 4), (5, 5)] ∧
    ∃ (src remote : NodeRef) (port : Nat),
      (twoPlatBuilder GetId i).clientN = i ∧
      (twoPlatBuilder GetId i).serverN = i ∧
      burstySources (twoPlatIteration GetId i) = [(src, remote, port)] ∧
      burstSinks (twoPlatIteration GetId i) = [(remote, port)] ∧
      src.group = remote.group ∧
      (burstySources (callsOf (TwoPlatSem.main GetId orthogonalResources d D speed)))[i.val]?
        = some (src, remote, port) ∧
      (burstSinks (callsOf (TwoPlatSem.main GetId orthogonalResources d D speed)))[i.val]?
        = some (remote, port) ∧
      txStats (callsOf (TwoPlatSem.main GetId orthogonalResources d D speed)) i = [i.val] ∧
      rxStats (callsOf (TwoPlatSem.main GetId orthogonalResources d D speed)) i = [i.val] := by
  refine ⟨rfl, ?_⟩
  have hs := twoPlat_burstySources GetId orthogonalResources d D speed
  have hk := twoPlat_burstSinks GetId orthogonalResources d D speed
  have ht := twoPlat_txStats GetId orthogonalResources d D speed i
  have hr := twoPlat_rxStats GetId orthogonalResources d D speed i
  rw [hs, hk, ht, hr]
  fin_cases i
  · exact ⟨⟨1, 0⟩, ⟨1, 3⟩, 50000, rfl, rfl, rfl, rfl, rfl, rfl, rfl, rfl, rfl⟩
  · exact ⟨⟨1, 1⟩, ⟨1, 3⟩, 50001, rfl, rfl, rfl, rfl, rfl, rfl, rfl, rfl, rfl⟩
  · exact ⟨⟨1, 2⟩, ⟨1, 3⟩, 50002, rfl, rfl, rfl, rfl, rfl, rfl, rfl, rfl, rfl⟩
  · exact ⟨⟨2, 0⟩, ⟨2, 3⟩, 50000, rfl, rfl, rfl, rfl, rfl, rfl, rfl, rfl, rfl⟩
  · exact ⟨⟨2, 1⟩, ⟨2, 3⟩, 50001, rfl, rfl, rfl, rfl, rfl, rfl, rfl, rfl, rfl⟩
  · exact ⟨⟨2, 2⟩, ⟨2, 3⟩, 50002, rfl, rfl, rfl, rfl, rfl, rfl, rfl, rfl, rfl⟩

/-- C20: in the two-group scenario, with node ids handed out in creation order (0..3 for
`group1`, 4..7 for `group2`), the label printed on row i of the final table (`i+1` for
i = 0..2, `i+2` for i = 3..5) is 1 plus the id of the node of the source at `clientApps` index
i; it is the node id bound to that source's `BurstTx` hook and the number in the output
filename `Dev<n>.txt` of the calculator bound to that hook; and the six labels are pairwise
distinct. -/
theorem table_labels_match (orthogonalResources : Bool) (d D speed : ℚ) (i : Fin 6) :
    TwoPlatSem.finalTable.map Row.label = [1, 2, 3, 5, 6, 7] ∧
    (TwoPlatSem.finalTable.map Row.label).Nodup ∧
    ∃ (row : Row) (src remote : NodeRef) (port stats : Nat),
      TwoPlatSem.finalTable[i.val]? = some row ∧
      row.clientIndex = i.val ∧
      row.label = (if i.val < 3 then i.val + 1 else i.val + 2) ∧
      (burstySources
        (callsOf (TwoPlatSem.main creationOrderId orthogonalResources d D speed)))[i.val]?
        = some (src, remote, port) ∧
      row.label = 1 + creationOrderId src ∧
      txNodeIds (callsOf (TwoPlatSem.main creationOrderId orthogonalResources d D speed)) i
        = [row.label] ∧
      txStats (callsOf (TwoPlatSem.main creationOrderId orthogonalResources d D speed)) i
        = [stats] ∧
      filenameOf (callsOf (TwoPlatSem.main creationOrderId orthogonalResources d D speed)) stats
        = some ("Dev" ++ toString row.label ++ ".txt") := by
  refine ⟨rfl, by decide, ?_⟩
  have hs := twoPlat_burstySources creationOrderId orthogonalResources d D speed
  have ht := twoPlat_txStats creationOrderId orthogonalResources d D speed i
  rw [hs, ht]
  cases orthogonalResources <;> fin_cases i
  · exact ⟨⟨1, 0, 0⟩, ⟨1, 0⟩, ⟨1, 3⟩, 50000, 0, rfl, rfl, rfl, rfl, rfl, rfl, rfl, rfl⟩
  · exact ⟨⟨2, 1, 1⟩, ⟨1, 1⟩, ⟨1, 3⟩, 50001, 1, rfl, rfl, rfl, rfl, rfl, rfl, rfl, rfl⟩
  · exact ⟨⟨3, 2, 2⟩, ⟨1, 2⟩, ⟨1, 3⟩, 50002, 2, rfl, rfl, rfl, rfl, rfl, rfl, rfl, rfl⟩
  · exact ⟨⟨5, 3, 3⟩, ⟨2, 0⟩, ⟨2, 3⟩, 50000, 3, rfl, rfl, rfl, rfl, rfl, rfl, rfl, rfl⟩
  · exact ⟨⟨6, 4, 4⟩, ⟨2, 1⟩, ⟨2, 3⟩, 50001, 4, rfl, rfl, rfl, rfl, rfl, rfl, rfl, rfl⟩
  · exact ⟨⟨7, 5, 5⟩, ⟨2, 2⟩, ⟨2, 3⟩, 50002, 5, rfl, rfl, rfl, rfl, rfl, rfl, rfl, rfl⟩
  · exact ⟨⟨1, 0, 0⟩, ⟨1, 0⟩, ⟨1, 3⟩, 50000, 0, rfl, rfl, rfl, rfl, rfl, rfl, rfl, rfl⟩
  · exact ⟨⟨2, 1, 1⟩, ⟨1, 1⟩, ⟨1, 3⟩, 50001, 1, rfl, rfl, rfl, rfl, rfl, rfl, rfl, rfl⟩
  · exact ⟨⟨3, 2, 2⟩, ⟨1, 2⟩, ⟨1, 3⟩, 50002, 2, rfl, rfl, rfl, rfl, rfl, rfl, rfl, rfl⟩
  · exact ⟨⟨5, 3, 3⟩, ⟨2, 0⟩, ⟨2, 3⟩, 50000, 3, rfl, rfl, rfl, rfl, rfl, rfl, rfl, rfl⟩
  · exact ⟨⟨6, 4, 4⟩, ⟨2, 1⟩, ⟨2, 3⟩, 50001, 4, rfl, rfl, rfl, rfl, rfl, rfl, rfl, rfl⟩
  · exact ⟨⟨7, 5, 5⟩, ⟨2, 2⟩, ⟨2, 3⟩, 50002, 5, rfl, rfl, rfl, rfl, rfl, rfl, rfl, rfl⟩

/-! ## Jittered start -/

theorem jitteredStarts_bounds (start : Int) (draws : List ℚ)
    (hdraws : ∀ v ∈ draws, jitterMin ≤ v ∧ v ≤ jitterMax) :
    ∀ t ∈ jitteredStarts start draws,
      (start : ℚ) ≤ t ∧ t ≤ (start : ℚ) + 1000000000 := by
  intro t ht
  simp only [jitteredStarts, List.mem_map] at ht
  obtain ⟨v, hv, rfl⟩ := ht
  obtain ⟨h0, h1⟩ := hdraws v hv
  simp only [jitterMin, jitterMax] at h0 h1
  constructor <;> nlinarith

/-- C14: in the trace-driven scenarios, for every list of draws of the jitter variable, each
within its bounds of 0 and 1 second, the start times of the sources are the base start time
plus each source's own draw, lie between the base and the base plus one second (base 1 s in
the single-group scenario, 0.1 s in the two-group one), and are strictly earlier than the
application stop time (40 s, respectively 7 s). -/
theorem jittered_start_window (GetId : NodeRef → Nat) (orthogonalResources : Bool)
    (d D speed : ℚ) (draws : List ℚ)
    (hdraws : ∀ v ∈ draws, jitterMin ≤ v ∧ v ≤ jitterMax) :
    (jitterBaseOf (callsOf (New.main GetId d speed)) AppContainer.clientApps
        = some 1000000000 ∧
      appStopOf (callsOf (New.main GetId d speed)) AppContainer.clientApps
        = some 40000000000 ∧
      clientStartTimes (callsOf (New.main GetId d speed)) draws
        = draws.map (fun v => (1000000000 : ℚ) + v * 1000000000) ∧
      ∀ t ∈ clientStartTimes (callsOf (New.main GetId d speed)) draws,
        (1000000000 : ℚ) ≤ t ∧ t ≤ 1000000000 + 1000000000 ∧ t < 40000000000) ∧
    (jitterBaseOf (callsOf (TwoPlatSem.main GetId orthogonalResources d D speed))
        AppContainer.clientApps = some 100000000 ∧
      appStopOf (callsOf (TwoPlatSem.main GetId orthogonalResources d D speed))
        AppContainer.clientApps = some 7000000000 ∧
      clientStartTimes (callsOf (TwoPlatSem.main GetId orthogonalResources d D speed)) draws
        = draws.map (fun v => (100000000 : ℚ) + v * 1000000000) ∧
      ∀ t ∈ clientStartTimes
          (callsOf (TwoPlatSem.main GetId orthogonalResources d D speed)) draws,
        (100000000 : ℚ) ≤ t ∧ t ≤ 100000000 + 1000000000 ∧ t < 7000000000) := by
  have hb1 : jitterBaseOf (callsOf (New.main GetId d speed)) AppContainer.clientApps
      = some 1000000000 := rfl
  have hb2 : jitterBaseOf (callsOf (TwoPlatSem.main GetId orthogonalResources d D speed))
      AppContainer.clientApps = some 100000000 := by
    cases orthogonalResources <;> rfl
  have hc1 : clientStartTimes (callsOf (New.main GetId d speed)) draws
      = jitteredStarts 1000000000 draws := by
    simp only [clientStartTimes, hb1]
  have hc2 : clientStartTimes (callsOf (TwoPlatSem.main GetId orthogonalResources d D speed))
      draws = jitteredStarts 100000000 draws := by
    simp only [clientStartTimes, hb2]
  refine ⟨⟨hb1, rfl, ?_, ?_⟩, ⟨hb2, ?_, ?_, ?_⟩⟩
  · rw [hc1]; simp [jitteredStarts]
  · intro t ht
    rw [hc1] at ht
    have h := jitteredStarts_bounds 1000000000 draws hdraws t ht
    push_cast at h
    refine ⟨h.1, h.2, ?_⟩
    linarith [h.2]
  · cases orthogonalResources <;> rfl
  · rw [hc2]; simp [jitteredStarts]
  · intro t ht
    rw [hc2] at ht
    have h := jitteredStarts_bounds 100000000 draws hdraws t ht
    push_cast at h
    refine ⟨h.1, h.2, ?_⟩
    linarith [h.2]

/-- Witness for C14: three sources of the single-group scenario with draws 0, 1/2 and 1 s. -/
theorem jittered_start_window_witness :
    clientStartTimes (callsOf (New.main creationOrderId 5 20)) [0, 1 / 2, 1]
      = [0, 1 / 2, 1].map (fun v => (1000000000 : ℚ) + v * 1000000000) :=
  (jittered_start_window creationOrderId false 5 10 20 [0, 1 / 2, 1]
    (by
      intro v hv
      simp only [List.mem_cons, List.mem_singleton, List.not_mem_nil, or_false] at hv
      rcases hv with rfl | rfl | rfl <;> norm_num [jitterMin, jitterMax])).1.2.2.1

/-! ## Sink node and front vehicle -/

theorem isAhead_of (calls : List Call) (front other : NodeRef) (a b speed : ℚ) (y0 y1 : ℚ)
    (hp : positionOf calls front = some ⟨a, y0, 0⟩)
    (hq : positionOf calls other = some ⟨b, y1, 0⟩)
    (hv : velocityOf calls front = some ⟨speed, 0, 0⟩)
    (hlt : b * speed < a * speed) : IsAhead calls front other :=
  ⟨_, _, _, hp, hq, hv, by simpa [Vector.dot] using hlt⟩

/-- C16 as stated fails: with `intraGroupDistance = 5 > 0` and `speed = -20` the group of the
ON/OFF scenario travels towards negative x while node 3 sits at the largest x, so measured
along the direction of travel node 3 is not ahead of node 0. -/
theorem front_vehicle_counterexample :
    (0 : ℚ) < 5 ∧
    positionOf (callsOf (OnOff.main 100 2000 5 (-20))) ⟨1, 3⟩ = some ⟨3 * 5, 0, 0⟩ ∧
    positionOf (callsOf (OnOff.main 100 2000 5 (-20))) ⟨1, 0⟩ = some ⟨0, 0, 0⟩ ∧
    velocityOf (callsOf (OnOff.main 100 2000 5 (-20))) ⟨1, 3⟩ = some ⟨-20, 0, 0⟩ ∧
    ¬ IsAhead (callsOf (OnOff.main 100 2000 5 (-20))) ⟨1, 3⟩ ⟨1, 0⟩ := by
  have hp := (OnOff_main_positions 100 2000 5 (-20)).2.2.2
  have hq := (OnOff_main_positions 100 2000 5 (-20)).1
  have hv := (OnOff_main_velocities 100 2000 5 (-20)).2.2.2
  refine ⟨by norm_num, hp, hq, hv, ?_⟩
  rintro ⟨p, q, v, h1, h2, h3, hlt⟩
  rw [hp] at h1
  rw [hq] at h2
  rw [hv] at h3
  cases h1
  cases h2
  cases h3
  norm_num [Vector.dot] at hlt

/-- C16 (amended): in every scenario and every group, node 3 is the single traffic sink: the
three sources are installed on nodes 0, 1, 2 and send to node 3's address, every sink
application is installed on node 3, and nodes 0, 1, 2 have their default route set to node 3;
and for every `intraGroupDistance > 0` and `speed > 0` node 3 is the front vehicle: measured
along the direction of travel it is strictly ahead of every other node of its group. -/
theorem node3_sink_and_front (GetId : NodeRef → Nat) (orthogonalResources : Bool)
    (startTime stopTime : Nat) (d D speed : ℚ) (hd : 0 < d) (hspeed : 0 < speed)
    (k : Fin 3) (g : Fin 2) :
    (sourceInstalls (callsOf (OnOff.main startTime stopTime d speed))
        = [(⟨1, 0⟩, ⟨1, 3⟩), (⟨1, 1⟩, ⟨1, 3⟩), (⟨1, 2⟩, ⟨1, 3⟩)] ∧
      sinkInstalls (callsOf (OnOff.main startTime stopTime d speed)) = [⟨1, 3⟩] ∧
      routesOf (callsOf (OnOff.main startTime stopTime d speed))
        = [(⟨1, 0⟩, ⟨1, 3⟩), (⟨1, 1⟩, ⟨1, 3⟩), (⟨1, 2⟩, ⟨1, 3⟩)] ∧
      IsAhead (callsOf (OnOff.main startTime stopTime d speed)) ⟨1, 3⟩ ⟨1, k⟩) ∧
    (sourceInstalls (callsOf (New.main GetId d speed))
        = [(⟨1, 0⟩, ⟨1, 3⟩), (⟨1, 1⟩, ⟨1, 3⟩), (⟨1, 2⟩, ⟨1, 3⟩)] ∧
      sinkInstalls (callsOf (New.main GetId d speed)) = [⟨1, 3⟩, ⟨1, 3⟩, ⟨1, 3⟩] ∧
      routesOf (callsOf (New.main GetId d speed))
        = [(⟨1, 0⟩, ⟨1, 3⟩), (⟨1, 1⟩, ⟨1, 3⟩), (⟨1, 2⟩, ⟨1, 3⟩)] ∧
      IsAhead (callsOf (New.main GetId d speed)) ⟨1, 3⟩ ⟨1, k⟩) ∧
    (sourceInstalls (callsOf (TwoPlatSem.main GetId orthogonalResources d D speed))
        = [ (⟨1, 0⟩, ⟨1, 3⟩), (⟨1, 1⟩, ⟨1, 3⟩), (⟨1, 2⟩, ⟨1, 3⟩),
            (⟨2, 0⟩, ⟨2, 3⟩), (⟨2, 1⟩, ⟨2, 3⟩), (⟨2, 2⟩, ⟨2, 3⟩) ] ∧
      sinkInstalls (callsOf (TwoPlatSem.main GetId orthogonalResources d D speed))
        = [⟨1, 3⟩, ⟨1, 3⟩, ⟨1, 3⟩, ⟨2, 3⟩, ⟨2, 3⟩, ⟨2, 3⟩] ∧
      routesOf (callsOf (TwoPlatSem.main GetId orthogonalResources d D speed))
        = [ (⟨1, 0⟩, ⟨1, 3⟩), (⟨1, 1⟩, ⟨1, 3⟩), (⟨1, 2⟩, ⟨1, 3⟩),
            (⟨2, 0⟩, ⟨2, 3⟩), (⟨2, 1⟩, ⟨2, 3⟩), (⟨2, 2⟩, ⟨2, 3⟩) ] ∧
      IsAhead (callsOf (TwoPlatSem.main GetId orthogonalResources d D speed))
        ⟨g + 1, 3⟩ ⟨g + 1, k⟩) := by
  obtain ⟨a0, a1, a2, a3⟩ := OnOff_main_positions startTime stopTime d speed
  obtain ⟨b0, b1, b2, b3⟩ := New_main_positions GetId d speed
  obtain ⟨⟨c0, c1, c2, c3⟩, ⟨e0, e1, e2, e3⟩⟩ :=
    TwoPlatSem_main_positions GetId orthogonalResources d D speed
  obtain ⟨-, -, -, va3⟩ := OnOff_main_velocities startTime stopTime d speed
  obtain ⟨-, -, -, vb3⟩ := New_main_velocities GetId d speed
  obtain ⟨⟨-, -, -, vc3⟩, ⟨-, -, -, ve3⟩⟩ :=
    TwoPlatSem_main_velocities GetId orthogonalResources d D speed
  have hds : 0 < d * speed := mul_pos hd hspeed
  have h0 : (0 : ℚ) * speed < 3 * d * speed := by nlinarith
  have h1 : d * speed < 3 * d * speed := by nlinarith
  have h2 : 2 * d * speed < 3 * d * speed := by nlinarith
  refine ⟨⟨rfl, rfl, rfl, ?_⟩, ⟨rfl, rfl, rfl, ?_⟩, ⟨?_, ?_, ?_, ?_⟩⟩
  · fin_cases k
    · exact isAhead_of _ _ _ _ _ _ _ _ a3 a0 va3 h0
    · exact isAhead_of _ _ _ _ _ _ _ _ a3 a1 va3 h1
    · exact isAhead_of _ _ _ _ _ _ _ _ a3 a2 va3 h2
  · fin_cases k
    · exact isAhead_of _ _ _ _ _ _ _ _ b3 b0 vb3 h0
    · exact isAhead_of _ _ _ _ _ _ _ _ b3 b1 vb3 h1
    · exact isAhead_of _ _ _ _ _ _ _ _ b3 b2 vb3 h2
  · cases orthogonalResources <;> rfl
  · cases orthogonalResources <;> rfl
  · cases orthogonalResources <;> rfl
  · fin_cases g
    · fin_cases k
      · exact isAhead_of _ _ _ _ _ _ _ _ c3 c0 vc3 h0
      · exact isAhead_of _ _ _ _ _ _ _ _ c3 c1 vc3 h1
      · exact isAhead_of _ _ _ _ _ _ _ _ c3 c2 vc3 h2
    · fin_cases k
      · exact isAhead_of _ _ _ _ _ _ _ _ e3 e0 ve3 h0
      · exact isAhead_of _ _ _ _ _ _ _ _ e3 e1 ve3 h1
      · exact isAhead_of _ _ _ _ _ _ _ _ e3 e2 ve3 h2

/-- Witness for C16 (amended): the default parameters of the ON/OFF scenario, node 0. -/
theorem node3_sink_and_front_witness :
    sinkInstalls (callsOf (OnOff.main 100 2000 5 20)) = [⟨1, 3⟩] ∧
    IsAhead (callsOf (OnOff.main 100 2000 5 20)) ⟨1, 3⟩ ⟨1, 0⟩ :=
  ⟨(node3_sink_and_front creationOrderId false 100 2000 5 10 20 (by norm_num) (by norm_num)
      0 0).1.2.1,
   (node3_sink_and_front creationOrderId false 100 2000 5 10 20 (by norm_num) (by norm_num)
      0 0).1.2.2.2⟩

/-! ## Destination ports -/

theorem new_destinations (GetId : NodeRef → Nat) (d speed : ℚ) :
    destinations (callsOf (New.main GetId d speed))
      = [ (some ("10.1.1.0", 4), 50000), (some ("10.1.1.0", 4), 50001),
          (some ("10.1.1.0", 4), 50002) ] := rfl

theorem twoPlat_destinations (GetId : NodeRef → Nat) (orth : Bool) (d D speed : ℚ) :
    destinations (callsOf (TwoPlatSem.main GetId orth d D speed))
      = [ (some ("10.1.1.0", 4), 50000), (some ("10.1.1.0", 4), 50001),
          (some ("10.1.1.0", 4), 50002), (some ("10.1.2.0", 4), 50000),
          (some ("10.1.2.0", 4), 50001), (some ("10.1.2.0", 4), 50002) ] := by
  cases orth <;> rfl

theorem new_sourcesPerSink (GetId : NodeRef → Nat) (d speed : ℚ) :
    sourcesPerSink (callsOf (New.main GetId d speed)) = [1, 1, 1] := by
  unfold sourcesPerSink
  rw [new_burstySources, new_burstSinks]
  decide

theorem twoPlat_sourcesPerSink (GetId : NodeRef → Nat) (orth : Bool) (d D speed : ℚ) :
    sourcesPerSink (callsOf (TwoPlatSem.main GetId orth d D speed)) = [1, 1, 1, 1, 1, 1] := by
  unfold sourcesPerSink
  rw [twoPlat_burstySources, twoPlat_burstSinks]
  decide

/-- C21: in the trace-driven scenarios, the source and the sink installed by loop iteration i
use the same port `50000 + i.val`, the source sending to node 3 of its group, on which the sink is
installed; the (destination address, port) pairs of the flows of a scenario are pairwise
distinct (three in the single-group scenario, six in the two-group one, where the sinks of the
two groups have different addresses); and every sink is the destination of exactly one
source. -/
theorem destination_ports_distinct (GetId : NodeRef → Nat) (orthogonalResources : Bool)
    (d D speed : ℚ) (i : Fin 3) :
    (burstySources (newIteration GetId i.val)
        = [(NodeRef.mk 1 i, NodeRef.mk 1 3, 50000 + i.val)] ∧
      burstSinks (newIteration GetId i.val) = [(NodeRef.mk 1 3, 50000 + i.val)] ∧
      (destinations (callsOf (New.main GetId d speed))).length = 3 ∧
      (destinations (callsOf (New.main GetId d speed))).Nodup ∧
      sourcesPerSink (callsOf (New.main GetId d speed)) = [1, 1, 1]) ∧
    (burstySources (twoPlatIteration GetId i.val)
        = [(NodeRef.mk 1 i, NodeRef.mk 1 3, 50000 + i.val)] ∧
      burstSinks (twoPlatIteration GetId i.val) = [(NodeRef.mk 1 3, 50000 + i.val)] ∧
      burstySources (twoPlatIteration GetId (3 + i.val))
        = [(NodeRef.mk 2 i, NodeRef.mk 2 3, 50000 + i.val)] ∧
      burstSinks (twoPlatIteration GetId (3 + i.val)) = [(NodeRef.mk 2 3, 50000 + i.val)] ∧
      addressOf (callsOf (TwoPlatSem.main GetId orthogonalResources d D speed)) ⟨1, 3⟩
        ≠ addressOf (callsOf (TwoPlatSem.main GetId orthogonalResources d D speed)) ⟨2, 3⟩ ∧
      (destinations
        (callsOf (TwoPlatSem.main GetId orthogonalResources d D speed))).length = 6 ∧
      (destinations (callsOf (TwoPlatSem.main GetId orthogonalResources d D speed))).Nodup ∧
      sourcesPerSink (callsOf (TwoPlatSem.main GetId orthogonalResources d D speed))
        = [1, 1, 1, 1, 1, 1]) := by
  have ha1 : addressOf (callsOf (TwoPlatSem.main GetId orthogonalResources d D speed)) ⟨1, 3⟩
      = some ("10.1.1.0", 4) := by
    cases orthogonalResources <;> rfl
  have ha2 : addressOf (callsOf (TwoPlatSem.main GetId orthogonalResources d D speed)) ⟨2, 3⟩
      = some ("10.1.2.0", 4) := by
    cases orthogonalResources <;> rfl
  have hn1 : (destinations (callsOf (New.main GetId d speed))).Nodup := by
    rw [new_destinations]; decide
  have hn2 : (destinations
      (callsOf (TwoPlatSem.main GetId orthogonalResources d D speed))).Nodup := by
    rw [twoPlat_destinations]; decide
  have hl2 : (destinations
      (callsOf (TwoPlatSem.main GetId orthogonalResources d D speed))).length = 6 := by
    rw [twoPlat_destinations]; rfl
  have hne : addressOf (callsOf (TwoPlatSem.main GetId orthogonalResources d D speed)) ⟨1, 3⟩
      ≠ addressOf (callsOf (TwoPlatSem.main GetId orthogonalResources d D speed)) ⟨2, 3⟩ := by
    rw [ha1, ha2]; decide
  refine ⟨⟨?_, ?_, rfl, hn1, new_sourcesPerSink GetId d speed⟩,
    ⟨?_, ?_, ?_, ?_, hne, hl2, hn2,
      twoPlat_sourcesPerSink GetId orthogonalResources d D speed⟩⟩ <;>
    fin_cases i <;> rfl

end VehicularThreeTransmitters
